import Mathlib

/-
Verification development for the enhance-faa-cifp repository.

The repository reads an FAA CIFP file (ARINC 424, fixed-width 132-column
records), builds a correlation index of airports, waypoints, navaids and
approach procedures, and augments every localizer primary record with a
synthesized continuation record that carries a computed true bearing.

The embedding below translates the Go sources:
  * arinc/model.go     — record layouts, coordinate codec, bearing encoder
  * enhance/enhance.go — correlation index and per-record processing
  * the earlier two-pass variant of the enhance engine (with the optional
    duplicate-localizer removal policy), kept in the repository sources

Modelling conventions:
  * A physical record is a `String` (ARINC lines are ASCII, space padded).
  * Fixed-width column access mirrors the go-fixedwidth library as it is
    observably used by the repository's own tests:
      - `fixedwidth.Unmarshal` (default configuration) trims surrounding
        spaces from each decoded field;
      - the decoder configured with `SetTrimSpace(false)` (used for the
        generic pass-through record) keeps leading spaces and trims only
        trailing spaces, so that marshalling (left aligned, space padded)
        reproduces a full-width line byte for byte;
      - an embedded struct is decoded from, and rendered into, exactly the
        column range of its `fixed` tag; inner fields whose ranges fall
        outside that span decode to the empty string and emit nothing.
  * Go `float64` arithmetic is modelled over `ℚ`.  The claims depend on
    decimal arithmetic at ≈1e-4 .. 1e-2 precision, far above the 1e-16
    error of binary doubles, and `fmt`'s two-decimal rounding is modelled
    as round-to-nearest (`round`); no claim exercises an exact tie.
  * The great-circle bearing function of the external golang-geo library
    is kept abstract: every processing function is parametrised by a
    bearing function `bt` on decoded points, exactly as the code only
    consumes its result.
  * Go maps are modelled as insertion-ordered association lists.  Go's map
    iteration order is unspecified; the spec (§4.3) explicitly allows an
    implementation-specific deterministic order for the single place this
    matters (`ApproachForLoc` takes the first matching approach).
  * Each `fmt.Errorf` site becomes a distinct error constructor carrying
    the interpolated data.
-/

set_option maxRecDepth 200000

namespace Cifp

/-! ## Basic fixed-width string machinery -/

/-- Drop trailing spaces (right trim). -/
def rtrimList (l : List Char) : List Char :=
  (l.reverse.dropWhile (fun c => c = ' ')).reverse

/-- Drop leading spaces (left trim). -/
def ltrimList (l : List Char) : List Char :=
  l.dropWhile (fun c => c = ' ')

/-- Trim spaces on both sides, as `strings.TrimSpace` does for the
space-padded ASCII content of ARINC records. -/
def trimList (l : List Char) : List Char :=
  rtrimList (ltrimList l)

/-- Columns `a..b` (1-based, inclusive) of a line, clamped to its length —
the column convention of the `fixed:"a,b"` struct tags. -/
def fieldCols (l : List Char) (a b : Nat) : List Char :=
  (l.drop (a - 1)).take (b - a + 1)

/-- Go slice `s[a:b]` (0-based, half-open), clamped to the length. -/
def slice (l : List Char) (a b : Nat) : List Char :=
  (l.drop a).take (b - a)

/-- Decode of one field by the decoder with `SetTrimSpace(false)`:
keeps leading spaces, trims trailing spaces. -/
def rawField (l : List Char) (a b : Nat) : String :=
  String.mk (rtrimList (fieldCols l a b))

/-- Decode of one field by plain `fixedwidth.Unmarshal`: spaces trimmed on
both sides. -/
def trimField (l : List Char) (a b : Nat) : String :=
  String.mk (trimList (fieldCols l a b))

/-- Render a field value into a column span of width `w`: left aligned,
truncated to the width, padded with spaces. -/
def rpadT (w : Nat) (s : String) : List Char :=
  s.toList.take w ++ List.replicate (w - s.toList.length) ' '

/-- Columns no field of the marshalled shape covers are emitted as spaces. -/
def gap (n : Nat) : List Char :=
  List.replicate n ' '

/-! ## Numeric parsing (strconv.Atoi / strconv.ParseFloat as used) -/

/-- Numeric value of a decimal digit character. -/
def digitVal (c : Char) : Nat := c.toNat - '0'.toNat

/-- Digit-accumulation loop shared by the `strconv` parsers: consumes the
whole list; any non-digit fails; an empty digit run fails (the accumulator
starts as `none`). -/
def goAtoiDigits : List Char → Option Nat → Option Nat
  | [], acc => acc
  | c :: cs, acc =>
    if c.isDigit then goAtoiDigits cs (some ((acc.getD 0) * 10 + digitVal c))
    else none

/-- Model of `strconv.Atoi`: an optional single leading sign followed by a
non-empty run of decimal digits, nothing else.  (Overflow cannot occur on
the at most four character sub-fields this program parses.) -/
def goAtoi (s : List Char) : Option Int :=
  match s with
  | '-' :: rest => (goAtoiDigits rest none).map (fun n => -(n : Int))
  | '+' :: rest => (goAtoiDigits rest none).map (fun n => (n : Int))
  | _ => (goAtoiDigits s none).map (fun n => (n : Int))

/-- Model of `strconv.ParseFloat` restricted to the only shape this program
ever builds: a five character string `c0 c1 '.' c3 c4` (two characters, a
literal dot, two characters).  On that shape the ParseFloat grammar
accepts exactly:
  * `[sign] digit digit '.' digit digit`   — value `±(d0d1).(d3d4)`
  * `[sign] digit digit '.' ('e'|'E') digit` — mantissa `±d0d1` with a
    one-digit exponent (an empty fraction before an exponent is legal);
underscores, `inf`/`NaN` and hex floats cannot fit this shape, a sign needs
at least one mantissa digit, and an exponent marker in the last position
has no digits after it, so everything else fails. -/
def goParseFloat5 (s : List Char) : Option ℚ :=
  match s with
  | [c0, c1, d, c3, c4] =>
    if d = '.' then
      if (c0.isDigit ∨ c0 = '+' ∨ c0 = '-') ∧ c1.isDigit then
        let sgn : ℚ := if c0 = '-' then -1 else 1
        let pre : Nat := if c0.isDigit then digitVal c0 * 10 + digitVal c1 else digitVal c1
        if c3.isDigit ∧ c4.isDigit then
          some (sgn * ((pre : ℚ) + ((digitVal c3 * 10 + digitVal c4 : Nat) : ℚ) / 100))
        else if (c3 = 'e' ∨ c3 = 'E') ∧ c4.isDigit then
          some (sgn * (pre : ℚ) * (10 : ℚ) ^ (digitVal c4))
        else none
      else none
    else none
  | _ => none

/-! ## Coordinate codec (arinc/model.go: parsePoint, LatLon) -/

/-- Error values of `parsePoint`, one constructor per `fmt.Errorf` site,
carrying the interpolated sub-field. -/
inductive PointErr where
  | invalidLength (point : List Char)
  | invalidDegrees (s : List Char)
  | invalidMinutes (s : List Char)
  | invalidSeconds (s : List Char)
deriving DecidableEq

/-- arinc/model.go `parsePoint`: parses one latitude or longitude string
into degrees, minutes and seconds, each multiplied by −1 for the 'S'/'W'
hemispheres.  A 9-character latitude gets a '0' inserted after the
hemisphere character; degrees are `point[1:4]`, minutes `point[4:6]`, and
seconds are `ParseFloat(point[6:8] ++ "." ++ point[8:10])`. -/
def parsePoint (pt : List Char) : Except PointErr (Int × Int × ℚ) :=
  if pt.length < 9 ∨ 10 < pt.length then .error (.invalidLength pt)
  else
    let p := if pt.length = 9 then pt.take 1 ++ '0' :: pt.drop 1 else pt
    let dir : Int := if p.headD ' ' = 'S' ∨ p.headD ' ' = 'W' then -1 else 1
    match goAtoi (slice p 1 4) with
    | none => .error (.invalidDegrees (slice p 1 4))
    | some degrees =>
      match goAtoi (slice p 4 6) with
      | none => .error (.invalidMinutes (slice p 4 6))
      | some minutes =>
        match goParseFloat5 (slice p 6 8 ++ '.' :: slice p 8 10) with
        | none => .error (.invalidSeconds (slice p 6 10))
        | some seconds => .ok (dir * degrees, dir * minutes, (dir : ℚ) * seconds)

/-- Error of `LatLon`, tagging which of the two coordinates failed. -/
inductive LatLonErr where
  | latErr (e : PointErr)
  | lonErr (e : PointErr)
deriving DecidableEq

/-- arinc/model.go `LatLon`: decimal latitude and longitude,
`deg + min/60 + sec/3600` componentwise. -/
def LatLon (latitude longitude : String) : Except LatLonErr (ℚ × ℚ) :=
  match parsePoint latitude.toList with
  | .error e => .error (.latErr e)
  | .ok (latDeg, latMin, latSec) =>
    match parsePoint longitude.toList with
    | .error e => .error (.lonErr e)
    | .ok (lonDeg, lonMin, lonSec) =>
      .ok ((latDeg : ℚ) + (latMin : ℚ) / 60 + latSec / 3600,
           (lonDeg : ℚ) + (lonMin : ℚ) / 60 + lonSec / 3600)

/-! ## Bearing encoder (arinc/model.go: EncodeBearing) -/

/-- Character for a decimal digit (0..9 ↦ '0'..'9'). -/
def decDigit (n : Nat) : Char := Char.ofNat (48 + n)

/-- Fuelled decimal-digit expansion (most significant digit first).  The
fuel is only a structural-recursion device; `natDigits` supplies enough. -/
def natDigitsAux : Nat → Nat → List Char
  | 0, _ => []
  | fuel + 1, m =>
    if m < 10 then [decDigit m]
    else natDigitsAux fuel (m / 10) ++ [decDigit (m % 10)]

/-- Decimal digits of a natural number, no padding (`fmt`'s rendering of
the integer part of a number). -/
def natDigits (m : Nat) : List Char := natDigitsAux (m + 1) m

/-- Exactly `k` decimal digits of `m`, zero padded on the left (`fmt`'s
rendering of a fraction part of fixed precision). -/
def padDigits : Nat → Nat → List Char
  | 0, _ => []
  | k + 1, m => padDigits k (m / 10) ++ [decDigit (m % 10)]

/-- Left-pad a character list with `c` to width `w`. -/
def padL (c : Char) (w : Nat) (l : List Char) : List Char :=
  List.replicate (w - l.length) c ++ l

/-- Model of `fmt.Sprintf("%06.2f", x)` for the non-negative bearings the
encoder is specified for (`EncodeBearing` documents its output as
undefined outside [0, 360)): the value rounded to hundredths `n`, printed
as the digits of `n / 100`, a dot, two fraction digits, zero padded on
the left to a minimum width of 6. -/
def goFmt06_2 (q : ℚ) : List Char :=
  let n : Nat := (round (q * 100)).toNat
  padL '0' 6 (natDigits (n / 100) ++ '.' :: padDigits 2 (n % 100))

/-- arinc/model.go `EncodeBearing`: format with `"%06.2f"` and drop the
character at byte index 3 (the decimal point of an in-range bearing):
`s[:3] + s[4:]`. -/
def EncodeBearing (bearing : ℚ) : String :=
  let s := goFmt06_2 bearing
  String.mk (s.take 3 ++ s.drop 4)

/-- The literal contract of the spec, stated independently of the
formatting route the source takes: the bearing rounded to hundredths of a
degree, rendered as exactly five zero-padded decimal digits (three
integer digits and two implied fraction digits). -/
def encodeBearingSpec (bearing : ℚ) : String :=
  String.mk (padDigits 5 (round (bearing * 100)).toNat)

/-! ## Record shapes (arinc/model.go) -/

/-- Section/subsection constants from arinc/model.go. -/
def SectionCodeNavaid : String := "D"

def SectionCodeEnroute : String := "E"

def SectionCodeAirport : String := "P"

def SubsectionCodeNavaidNDB : String := "B"

def SubsectionCodeNavaidVHF : String := ""

def SubsectionCodeEnrouteWaypoint : String := "A"

def SubsectionCodeTerminalWaypoint : String := "C"

def SubsectionCodeApproachProcedure : String := "F"

def SubsectionCodeLocGS : String := "I"

def ContinuationRecordSimulation : String := "S"

def LocalizerBearingSourceNotGovt : String := "N"

/-- `arinc.Record`, the base shape every record follows (columns 1-132). -/
structure Record where
  RecordType : String
  CustomerAreaCode : String
  SectionCode : String
  SubsectionCode : String
  Data : String
  FileRecordNumber : String
  CycleDate : String
deriving DecidableEq

/-- Decode of `arinc.Record` by the decoder with `SetTrimSpace(false)`
(the pass-through decode in `processRecord`). -/
def decRecordRaw (l : List Char) : Record where
  RecordType := rawField l 1 1
  CustomerAreaCode := rawField l 2 4
  SectionCode := rawField l 5 5
  SubsectionCode := rawField l 6 6
  Data := rawField l 7 123
  FileRecordNumber := rawField l 124 128
  CycleDate := rawField l 129 132

/-- Decode of `arinc.Record` by plain `fixedwidth.Unmarshal` (the earlier
two-pass engine decodes its pass-through record this way). -/
def decRecordTrim (l : List Char) : Record where
  RecordType := trimField l 1 1
  CustomerAreaCode := trimField l 2 4
  SectionCode := trimField l 5 5
  SubsectionCode := trimField l 6 6
  Data := trimField l 7 123
  FileRecordNumber := trimField l 124 128
  CycleDate := trimField l 129 132

/-- Marshal of `arinc.Record`: its seven column ranges tile 1-132 exactly,
each field left aligned and space padded to its span. -/
def marshalRecord (r : Record) : List Char :=
  rpadT 1 r.RecordType ++ rpadT 3 r.CustomerAreaCode ++ rpadT 1 r.SectionCode ++
    rpadT 1 r.SubsectionCode ++ rpadT 117 r.Data ++ rpadT 5 r.FileRecordNumber ++
    rpadT 4 r.CycleDate

/-- Marshal of `arinc.Record` as the emitted line. -/
def marshalRecordStr (r : Record) : String := String.mk (marshalRecord r)

/-- `arinc.AirportEnrouteRecord` — the fields the engine reads (airport
identifier, columns 7-10, and the airport subsection code, column 13).
The remaining fields of the Go struct (the embedded `Record` and the
`Data` payload) are never consulted through this shape. -/
structure AirportEnrouteRec where
  AirportID : String
  SubsectionCode : String
deriving DecidableEq

/-- Decode of the `AirportEnrouteRecord` fields the engine reads. -/
def decAirportEnroute (l : List Char) : AirportEnrouteRec where
  AirportID := trimField l 7 10
  SubsectionCode := trimField l 13 13

/-- `arinc.NDBNavaidRecord` — the fields the engine reads. -/
structure NDBNavaidRec where
  NDBID : String
  NDBLatitude : String
  NDBLongitude : String
deriving DecidableEq

/-- Decode of the `NDBNavaidRecord` fields the engine reads
(`NDBID` 14-17, `NDBLatitude` 33-41, `NDBLongitude` 42-51). -/
def decNDB (l : List Char) : NDBNavaidRec where
  NDBID := trimField l 14 17
  NDBLatitude := trimField l 33 41
  NDBLongitude := trimField l 42 51

/-- `arinc.VHFNavaidRecord` — the fields the engine reads. -/
structure VHFNavaidRec where
  VORID : String
  VORLatitude : String
  VORLongitude : String
deriving DecidableEq

/-- Decode of the `VHFNavaidRecord` fields the engine reads
(`VORID` 14-17, `VORLatitude` 33-41, `VORLongitude` 42-51). -/
def decVHF (l : List Char) : VHFNavaidRec where
  VORID := trimField l 14 17
  VORLatitude := trimField l 33 41
  VORLongitude := trimField l 42 51

/-- `arinc.WaypointPrimaryRecord` — the fields the engine reads. -/
structure WaypointPrimaryRec where
  AirportID : String
  WaypointID : String
  WaypointLatitude : String
  WaypointLongitude : String
deriving DecidableEq

/-- Decode of the `WaypointPrimaryRecord` fields the engine reads
(`AirportID` 7-10 via the embedded airport record, `WaypointID` 14-18,
`WaypointLatitude` 33-41, `WaypointLongitude` 42-51). -/
def decWaypoint (l : List Char) : WaypointPrimaryRec where
  AirportID := trimField l 7 10
  WaypointID := trimField l 14 18
  WaypointLatitude := trimField l 33 41
  WaypointLongitude := trimField l 42 51

/-- `arinc.AirportProcedurePrimaryRecord` — the fields the engine reads. -/
structure ApchProcedureRec where
  AirportID : String
  ProcedureID : String
  FixID : String
  WaypointDescriptionCode : String
  RecommendedNavaid : String
deriving DecidableEq

/-- Decode of the `AirportProcedurePrimaryRecord` fields the engine reads
(`AirportID` 7-10, `ProcedureID` 14-19, `FixID` 30-34,
`WaypointDescriptionCode` 40-43, `RecommendedNavaid` 51-54). -/
def decApch (l : List Char) : ApchProcedureRec where
  AirportID := trimField l 7 10
  ProcedureID := trimField l 14 19
  FixID := trimField l 30 34
  WaypointDescriptionCode := trimField l 40 43
  RecommendedNavaid := trimField l 51 54

/-- arinc/model.go `IsLocalizerFrontCourseApproach`: the procedure
identifier is non-empty and starts with 'I', 'L', 'U' or 'X'
(ILS, LOC, SDF, LDA). -/
def IsLocalizerFrontCourseApproach (p : ApchProcedureRec) : Bool :=
  match p.ProcedureID.toList with
  | [] => false
  | c :: _ => c = 'I' ∨ c = 'L' ∨ c = 'U' ∨ c = 'X'

/-- arinc/model.go `IsFinalApproachFix`: the waypoint description code has
at least four characters and its fourth character (`d[3]`) is 'F'. -/
def IsFinalApproachFix (p : ApchProcedureRec) : Bool :=
  4 ≤ p.WaypointDescriptionCode.length ∧ p.WaypointDescriptionCode.toList.getD 3 ' ' = 'F'

/-- The column-1-13 header shared by the localizer primary record and its
simulation continuation record: the clip-visible part of the embedded
`AirportEnrouteRecord` (which itself embeds `Record` clipped to columns
1-6).  Inner fields whose tagged ranges fall outside the embedding span
(`Record.Data` 7-123, `FileRecordNumber`, `CycleDate`, and the airport
record's own `Data` 14-123) decode to "" and render nothing, so they are
not represented. -/
structure ArptHeader where
  RecordType : String
  CustomerAreaCode : String
  SectionCode : String
  SubsectionCode6 : String
  AirportID : String
  ICAOCode : String
  SubsectionCode : String
deriving DecidableEq

/-- Decode of the embedded header (trimmed fields, clipped embedding). -/
def decArptHeader (l : List Char) : ArptHeader where
  RecordType := trimField l 1 1
  CustomerAreaCode := trimField l 2 4
  SectionCode := trimField l 5 5
  SubsectionCode6 := trimField l 6 6
  AirportID := trimField l 7 10
  ICAOCode := trimField l 11 12
  SubsectionCode := trimField l 13 13

/-- Columns 1-13 of a marshalled record owning an embedded header. -/
def marshalHeader (h : ArptHeader) : List Char :=
  rpadT 1 h.RecordType ++ rpadT 3 h.CustomerAreaCode ++ rpadT 1 h.SectionCode ++
    rpadT 1 h.SubsectionCode6 ++ rpadT 4 h.AirportID ++ rpadT 2 h.ICAOCode ++
    rpadT 1 h.SubsectionCode

/-- `arinc.AirportLocGSPrimaryRecord` (4.1.11.1), all declared fields. -/
structure LocGSRec where
  header : ArptHeader
  LocalizerID : String
  ILSCategory : String
  ContinuationRecordNumber : String
  LocalizerFrequency : String
  RunwayIdentifier : String
  LocalizerLatitude : String
  LocalizerLongitude : String
  LocalizerBearing : String
  GlideSlopeLatitude : String
  GlideSlopeLongitude : String
  LocalizerPosition : String
  LocalizerPositionReference : String
  GlideSlopePosition : String
  LocalizerWidth : String
  GlideSlopeAngle : String
  StationDeclination : String
  GlideSlopeHeightAtThreshold : String
  GlideSlopeElevation : String
  SupportingFacilityID : String
  SupportingFacilityICAOCode : String
  SupportingFacilitySectionCode : String
  SupportingFacilitySubsectionCode : String
  Data : String
deriving DecidableEq

/-- Decode of `AirportLocGSPrimaryRecord` (trimmed fields at the column
ranges of the struct tags). -/
def decLocGS (l : List Char) : LocGSRec where
  header := decArptHeader l
  LocalizerID := trimField l 14 17
  ILSCategory := trimField l 18 18
  ContinuationRecordNumber := trimField l 22 22
  LocalizerFrequency := trimField l 23 27
  RunwayIdentifier := trimField l 28 32
  LocalizerLatitude := trimField l 33 41
  LocalizerLongitude := trimField l 42 51
  LocalizerBearing := trimField l 52 55
  GlideSlopeLatitude := trimField l 56 64
  GlideSlopeLongitude := trimField l 65 74
  LocalizerPosition := trimField l 75 78
  LocalizerPositionReference := trimField l 79 79
  GlideSlopePosition := trimField l 80 83
  LocalizerWidth := trimField l 84 87
  GlideSlopeAngle := trimField l 88 90
  StationDeclination := trimField l 91 95
  GlideSlopeHeightAtThreshold := trimField l 96 97
  GlideSlopeElevation := trimField l 98 102
  SupportingFacilityID := trimField l 103 106
  SupportingFacilityICAOCode := trimField l 107 108
  SupportingFacilitySectionCode := trimField l 109 109
  SupportingFacilitySubsectionCode := trimField l 110 110
  Data := trimField l 124 132

/-- Marshal of `AirportLocGSPrimaryRecord`: header columns 1-13, its own
fields at their tagged spans, spaces for the uncovered columns 19-21 and
111-123 (`Data` spans 124-132). -/
def marshalLocGS (x : LocGSRec) : List Char :=
  marshalHeader x.header ++ rpadT 4 x.LocalizerID ++ rpadT 1 x.ILSCategory ++
    gap 3 ++ rpadT 1 x.ContinuationRecordNumber ++ rpadT 5 x.LocalizerFrequency ++
    rpadT 5 x.RunwayIdentifier ++ rpadT 9 x.LocalizerLatitude ++
    rpadT 10 x.LocalizerLongitude ++ rpadT 4 x.LocalizerBearing ++
    rpadT 9 x.GlideSlopeLatitude ++ rpadT 10 x.GlideSlopeLongitude ++
    rpadT 4 x.LocalizerPosition ++ rpadT 1 x.LocalizerPositionReference ++
    rpadT 4 x.GlideSlopePosition ++ rpadT 4 x.LocalizerWidth ++
    rpadT 3 x.GlideSlopeAngle ++ rpadT 5 x.StationDeclination ++
    rpadT 2 x.GlideSlopeHeightAtThreshold ++ rpadT 5 x.GlideSlopeElevation ++
    rpadT 4 x.SupportingFacilityID ++ rpadT 2 x.SupportingFacilityICAOCode ++
    rpadT 1 x.SupportingFacilitySectionCode ++ rpadT 1 x.SupportingFacilitySubsectionCode ++
    gap 13 ++ rpadT 9 x.Data

/-- Marshal of the localizer primary record as the emitted line. -/
def marshalLocGSStr (x : LocGSRec) : String := String.mk (marshalLocGS x)

/-- `arinc.AirportLocGSSimContinuationRecord` (4.1.11.3), all declared
fields. -/
structure LocGSContRec where
  header : ArptHeader
  LocalizerID : String
  ILSCategory : String
  ContinuationRecordNumber : String
  ApplicationType : String
  FacilityCharacteristics : String
  LocalizerTrueBearing : String
  LocalizerBearingSource : String
  GlideSlopeBeamWidth : String
  ApproachRouteIdent1 : String
  ApproachRouteIdent2 : String
  ApproachRouteIdent3 : String
  ApproachRouteIdent4 : String
  ApproachRouteIdent5 : String
  Data : String
deriving DecidableEq

/-- Marshal of the continuation record: header columns 1-13,
`LocalizerID` 14-17, `ILSCategory` 18, gap 19-21,
`ContinuationRecordNumber` 22, `ApplicationType` 23,
`FacilityCharacteristics` 24-27, gap 28-51, `LocalizerTrueBearing` 52-56,
`LocalizerBearingSource` 57, gap 58-87, `GlideSlopeBeamWidth` 88-90,
`ApproachRouteIdent1..5` 91-120, gap 121-123, `Data` 124-132. -/
def marshalLocGSCont (x : LocGSContRec) : List Char :=
  marshalHeader x.header ++ rpadT 4 x.LocalizerID ++ rpadT 1 x.ILSCategory ++
    gap 3 ++ rpadT 1 x.ContinuationRecordNumber ++ rpadT 1 x.ApplicationType ++
    rpadT 4 x.FacilityCharacteristics ++ gap 24 ++ rpadT 5 x.LocalizerTrueBearing ++
    rpadT 1 x.LocalizerBearingSource ++ gap 30 ++ rpadT 3 x.GlideSlopeBeamWidth ++
    rpadT 6 x.ApproachRouteIdent1 ++ rpadT 6 x.ApproachRouteIdent2 ++
    rpadT 6 x.ApproachRouteIdent3 ++ rpadT 6 x.ApproachRouteIdent4 ++
    rpadT 6 x.ApproachRouteIdent5 ++ gap 3 ++ rpadT 9 x.Data

/-- Marshal of the continuation record as the emitted line. -/
def marshalLocGSContStr (x : LocGSContRec) : String := String.mk (marshalLocGSCont x)

/-! ## Correlation index (enhance/enhance.go) -/

/-- A decoded geographic point (`geo.Point`), latitude and longitude in
decimal degrees. -/
abbrev GeoPoint := ℚ × ℚ

/-- The initial-bearing function of the external golang-geo library
(`Point.BearingTo`), kept abstract: the engine is parametrised by it and
only consumes its result.  Its first argument is the origin point, the
second the destination. -/
abbrev BearingFn := GeoPoint → GeoPoint → ℚ

/-- Go-map model: insertion-ordered association list lookup (first match). -/
def alGet {α : Type} : List (String × α) → String → Option α
  | [], _ => none
  | (k, v) :: rest, key => if k = key then some v else alGet rest key

/-- Go-map model: insert or overwrite, keeping the position of an existing
key (Go's `m[k] = v`, and equally the fetch-pointer-then-mutate update the
approach map uses). -/
def alPut {α : Type} : List (String × α) → String → α → List (String × α)
  | [], key, v => [(key, v)]
  | (k, w) :: rest, key, v =>
    if k = key then (k, v) :: rest else (k, w) :: alPut rest key v

/-- enhance/enhance.go `locApchData`. -/
structure LocApchData where
  FinalApproachFix : String
  LocalizerID : String
deriving DecidableEq

/-- enhance/enhance.go `airportData`. -/
structure AirportData where
  Waypoints : List (String × GeoPoint)
  Approaches : List (String × LocApchData)

/-- A fresh `airportData` value (both maps empty). -/
def emptyAirportData : AirportData where
  Waypoints := []
  Approaches := []

/-- enhance/enhance.go `ApproachForLoc`: the first approach of the airport
whose `LocalizerID` matches; `none` when there is no match. -/
def ApproachForLoc (a : AirportData) (localizerId : String) : Option LocApchData :=
  a.Approaches.foldr
    (fun kv acc => if kv.2.LocalizerID = localizerId then some kv.2 else acc) none

/-- enhance/enhance.go `processor`: the whole mutable state of one run. -/
structure Processor where
  Airports : List (String × AirportData)
  OtherWaypoints : List (String × GeoPoint)

/-- enhance/enhance.go `newProcessor`. -/
def newProcessor : Processor where
  Airports := []
  OtherWaypoints := []

/-- The lazy airport upsert of `processRecord`: create an empty
`airportData` for the identifier unless one already exists. -/
def ensureAirport (p : Processor) (airportId : String) : Processor :=
  match alGet p.Airports airportId with
  | some _ => p
  | none => { p with Airports := p.Airports ++ [(airportId, emptyAirportData)] }

/-- Update the `airportData` stored under a key (mutation through the map
pointer in Go); a missing key is left untouched (the engine only updates
keys it has just ensured). -/
def modifyAirport (m : List (String × AirportData)) (key : String)
    (f : AirportData → AirportData) : List (String × AirportData) :=
  m.map (fun kv => if kv.1 = key then (kv.1, f kv.2) else kv)

/-- One error constructor per `fmt.Errorf` site of enhance/enhance.go,
carrying the interpolated data. -/
inductive ProcErr where
  | ndbLatLon (e : LatLonErr)
  | vorLatLon (vorId : String) (e : LatLonErr)
  | enrouteWptLatLon (e : LatLonErr)
  | terminalWptLatLon (e : LatLonErr)
  | missingAirport (locId airportId : String)
  | noApproach (locId : String)
  | noFAFWaypoint (fixId : String)
  | locLatLon (locId : String) (e : LatLonErr)
deriving DecidableEq

/-- The final-approach-fix resolution of `processLocalizer`: the airport's
local terminal waypoints first, the global waypoint map as fallback. -/
def fafLookup (p : Processor) (a : AirportData) (fixId : String) : Option GeoPoint :=
  match alGet a.Waypoints fixId with
  | some w => some w
  | none => alGet p.OtherWaypoints fixId

/-- enhance/enhance.go `processLocalizer`: resolve the airport entry, the
first approach using this localizer, and the final-approach-fix position
(local terminal waypoints first, then the global map); decode the
localizer's own coordinates; take the bearing from the fix to the
localizer, adding 360 when the library returns a negative azimuth; and
build the simulation continuation record. -/
def processLocalizer (bt : BearingFn) (p : Processor) (loc : LocGSRec) :
    Except ProcErr LocGSContRec :=
  match alGet p.Airports loc.header.AirportID with
  | none => .error (.missingAirport loc.LocalizerID loc.header.AirportID)
  | some a =>
    match ApproachForLoc a loc.LocalizerID with
    | none => .error (.noApproach loc.LocalizerID)
    | some apch =>
      match fafLookup p a apch.FinalApproachFix with
      | none => .error (.noFAFWaypoint apch.FinalApproachFix)
      | some fapWaypoint =>
        match LatLon loc.LocalizerLatitude loc.LocalizerLongitude with
        | .error e => .error (.locLatLon loc.LocalizerID e)
        | .ok locPosition =>
          let bearing0 := bt fapWaypoint locPosition
          let bearing := if bearing0 < 0 then 360 + bearing0 else bearing0
          .ok { header := loc.header
                LocalizerID := loc.LocalizerID
                ILSCategory := loc.ILSCategory
                ContinuationRecordNumber := "2"
                ApplicationType := ContinuationRecordSimulation
                FacilityCharacteristics := ""
                LocalizerTrueBearing := EncodeBearing bearing
                LocalizerBearingSource := LocalizerBearingSourceNotGovt
                GlideSlopeBeamWidth := ""
                ApproachRouteIdent1 := ""
                ApproachRouteIdent2 := ""
                ApproachRouteIdent3 := ""
                ApproachRouteIdent4 := ""
                ApproachRouteIdent5 := ""
                Data := "" }

/-- enhance/enhance.go `processRecord`.  Dispatch on section/subsection of
the pass-through record (decoded with `SetTrimSpace(false)`); maintain the
index; for a localizer record, either emit the primary (continuation
number forced to "1") plus the synthesized continuation record (its `Data`
carry-over copied verbatim from the primary), or — when `processLocalizer`
fails — log-and-skip by emitting the unmodified pass-through record.  The
three airport-subsection tests of the source are sequential `if`s on the
same already-decoded field, hence mutually exclusive; they are written as
an `if .. else if` chain. -/
def processRecord (bt : BearingFn) (p : Processor) (line : String) :
    Except ProcErr (Processor × String) :=
  let l := line.toList
  let r := decRecordRaw l
  if r.SectionCode = SectionCodeNavaid then
    if r.SubsectionCode = SubsectionCodeNavaidNDB then
      let n := decNDB l
      match LatLon n.NDBLatitude n.NDBLongitude with
      | .error e => .error (.ndbLatLon e)
      | .ok ll =>
        .ok ({ p with OtherWaypoints := alPut p.OtherWaypoints n.NDBID ll },
             marshalRecordStr r ++ "\n")
    else if r.SubsectionCode = SubsectionCodeNavaidVHF then
      let n := decVHF l
      if n.VORLatitude = "" ∨ n.VORLongitude = "" then
        .ok (p, marshalRecordStr r ++ "\n")
      else
        match LatLon n.VORLatitude n.VORLongitude with
        | .error e => .error (.vorLatLon n.VORID e)
        | .ok ll =>
          .ok ({ p with OtherWaypoints := alPut p.OtherWaypoints n.VORID ll },
               marshalRecordStr r ++ "\n")
    else .ok (p, marshalRecordStr r ++ "\n")
  else if r.SectionCode = SectionCodeAirport ∨ r.SectionCode = SectionCodeEnroute then
    let a := decAirportEnroute l
    let step1 : Except ProcErr Processor :=
      if r.SectionCode = SectionCodeEnroute ∧ r.SubsectionCode = SubsectionCodeEnrouteWaypoint then
        let wpt := decWaypoint l
        match LatLon wpt.WaypointLatitude wpt.WaypointLongitude with
        | .error e => .error (.enrouteWptLatLon e)
        | .ok ll =>
          .ok { p with OtherWaypoints := alPut p.OtherWaypoints wpt.WaypointID ll }
      else .ok p
    match step1 with
    | .error e => .error e
    | .ok p1 =>
      if r.SectionCode = SectionCodeAirport then
        let p2 := ensureAirport p1 a.AirportID
        if a.SubsectionCode = SubsectionCodeTerminalWaypoint then
          let wpt := decWaypoint l
          match LatLon wpt.WaypointLatitude wpt.WaypointLongitude with
          | .error e => .error (.terminalWptLatLon e)
          | .ok ll =>
            .ok ({ p2 with Airports := (modifyAirport p2.Airports wpt.AirportID
                    (fun ad => { ad with Waypoints := alPut ad.Waypoints wpt.WaypointID ll })) },
                 marshalRecordStr r ++ "\n")
        else if a.SubsectionCode = SubsectionCodeApproachProcedure then
          let apch := decApch l
          let p3 :=
            if IsLocalizerFrontCourseApproach apch ∧ IsFinalApproachFix apch then
              { p2 with Airports := (modifyAirport p2.Airports apch.AirportID
                  (fun ad => { ad with Approaches := (alPut ad.Approaches apch.ProcedureID
                      { FinalApproachFix := apch.FixID, LocalizerID := apch.RecommendedNavaid }) })) }
            else p2
          .ok (p3, marshalRecordStr r ++ "\n")
        else if a.SubsectionCode = SubsectionCodeLocGS then
          let loc := decLocGS l
          match processLocalizer bt p2 loc with
          | .error _ => .ok (p2, marshalRecordStr r ++ "\n")
          | .ok contRecord =>
            .ok (p2,
                 marshalLocGSStr { loc with ContinuationRecordNumber := "1" } ++ "\n" ++
                 marshalLocGSContStr { contRecord with Data := loc.Data } ++ "\n")
        else .ok (p2, marshalRecordStr r ++ "\n")
      else .ok (p1, marshalRecordStr r ++ "\n")
  else .ok (p, marshalRecordStr r ++ "\n")

/-- The scan loop of `Process`: feed each line to `processRecord`,
appending the produced output; the first error aborts the run. -/
def processLoop (bt : BearingFn) (p : Processor) (acc : String) :
    List String → Except ProcErr String
  | [] => .ok acc
  | line :: rest =>
    match processRecord bt p line with
    | .error e => .error e
    | .ok (p1, out) => processLoop bt p1 (acc ++ out) rest

/-- enhance/enhance.go `Process`: scan the input line by line through
`processRecord` over a fresh processor, concatenating the output. -/
def ProcessLines (bt : BearingFn) (lines : List String) : Except ProcErr String :=
  processLoop bt newProcessor "" lines

/-! ## The two-pass engine with the duplicate-localizer removal policy

The repository also carries the variant of the enhance engine whose
`Process` takes an `io.ReadSeeker` and an option list: with
`RemoveDuplicateLocalizers` enabled it first scans the whole input once,
marking every localizer identifier seen more than once, and during the
main pass drops a marked localizer outright when its ILS category is "A"
or "L" (an LDA facility with or without glideslope).  Its pass-through
record is decoded by plain `fixedwidth.Unmarshal` (no `SetTrimSpace`
call). -/

/-- The `processor` of the two-pass engine. -/
structure ProcessorD where
  Airports : List (String × AirportData)
  OtherWaypoints : List (String × GeoPoint)
  DuplicateLocalizers : List (String × Bool)
  RemoveDuplicateLocalizers : Bool

/-- `newProcessor` of the two-pass engine with the option applied. -/
def newProcessorD (removeDuplicates : Bool) : ProcessorD where
  Airports := []
  OtherWaypoints := []
  DuplicateLocalizers := []
  RemoveDuplicateLocalizers := removeDuplicates

/-- `preProcess` of the two-pass engine: for every airport localizer
record, flip the duplicate flag to `true` if the localizer identifier is
already present, otherwise insert it as `false`.  (The caller discards the
error return; decoding is total in this model.) -/
def preProcess (p : ProcessorD) (line : String) : ProcessorD :=
  let l := line.toList
  let r := decRecordTrim l
  if r.SectionCode = SectionCodeAirport then
    let a := decAirportEnroute l
    if r.SectionCode = SectionCodeAirport ∧ a.SubsectionCode = SubsectionCodeLocGS then
      let loc := decLocGS l
      match alGet p.DuplicateLocalizers loc.LocalizerID with
      | some _ => { p with DuplicateLocalizers := alPut p.DuplicateLocalizers loc.LocalizerID true }
      | none => { p with DuplicateLocalizers := alPut p.DuplicateLocalizers loc.LocalizerID false }
    else p
  else p

/-- `processLocalizer` of the two-pass engine (same algorithm as the
current one, over the extended state). -/
def processLocalizerD (bt : BearingFn) (p : ProcessorD) (loc : LocGSRec) :
    Except ProcErr LocGSContRec :=
  processLocalizer bt { Airports := p.Airports, OtherWaypoints := p.OtherWaypoints } loc

/-- `processRecord` of the two-pass engine.  It differs from the current
engine in two observable ways: the pass-through record is decoded with
the default (space-trimming) decoder, and a localizer whose identifier is
marked duplicated whose ILS category is "A" or "L" returns `(nil, nil)` —
no output at all. -/
def processRecordD (bt : BearingFn) (p : ProcessorD) (line : String) :
    Except ProcErr (ProcessorD × String) :=
  let l := line.toList
  let r := decRecordTrim l
  if r.SectionCode = SectionCodeNavaid then
    if r.SubsectionCode = SubsectionCodeNavaidNDB then
      let n := decNDB l
      match LatLon n.NDBLatitude n.NDBLongitude with
      | .error e => .error (.ndbLatLon e)
      | .ok ll =>
        .ok ({ p with OtherWaypoints := alPut p.OtherWaypoints n.NDBID ll },
             marshalRecordStr r ++ "\n")
    else if r.SubsectionCode = SubsectionCodeNavaidVHF then
      let n := decVHF l
      if n.VORLatitude = "" ∨ n.VORLongitude = "" then
        .ok (p, marshalRecordStr r ++ "\n")
      else
        match LatLon n.VORLatitude n.VORLongitude with
        | .error e => .error (.vorLatLon n.VORID e)
        | .ok ll =>
          .ok ({ p with OtherWaypoints := alPut p.OtherWaypoints n.VORID ll },
               marshalRecordStr r ++ "\n")
    else .ok (p, marshalRecordStr r ++ "\n")
  else if r.SectionCode = SectionCodeAirport ∨ r.SectionCode = SectionCodeEnroute then
    let a := decAirportEnroute l
    let step1 : Except ProcErr ProcessorD :=
      if r.SectionCode = SectionCodeEnroute ∧ r.SubsectionCode = SubsectionCodeEnrouteWaypoint then
        let wpt := decWaypoint l
        match LatLon wpt.WaypointLatitude wpt.WaypointLongitude with
        | .error e => .error (.enrouteWptLatLon e)
        | .ok ll =>
          .ok { p with OtherWaypoints := alPut p.OtherWaypoints wpt.WaypointID ll }
      else .ok p
    match step1 with
    | .error e => .error e
    | .ok p1 =>
      if r.SectionCode = SectionCodeAirport then
        let p2 : ProcessorD :=
          match alGet p1.Airports a.AirportID with
          | some _ => p1
          | none => { p1 with Airports := p1.Airports ++ [(a.AirportID, emptyAirportData)] }
        if a.SubsectionCode = SubsectionCodeTerminalWaypoint then
          let wpt := decWaypoint l
          match LatLon wpt.WaypointLatitude wpt.WaypointLongitude with
          | .error e => .error (.terminalWptLatLon e)
          | .ok ll =>
            .ok ({ p2 with Airports := (modifyAirport p2.Airports wpt.AirportID
                    (fun ad => { ad with Waypoints := alPut ad.Waypoints wpt.WaypointID ll })) },
                 marshalRecordStr r ++ "\n")
        else if a.SubsectionCode = SubsectionCodeApproachProcedure then
          let apch := decApch l
          let p3 :=
            if IsLocalizerFrontCourseApproach apch ∧ IsFinalApproachFix apch then
              { p2 with Airports := (modifyAirport p2.Airports apch.AirportID
                  (fun ad => { ad with Approaches := (alPut ad.Approaches apch.ProcedureID
                      { FinalApproachFix := apch.FixID, LocalizerID := apch.RecommendedNavaid }) })) }
            else p2
          .ok (p3, marshalRecordStr r ++ "\n")
        else if a.SubsectionCode = SubsectionCodeLocGS then
          let loc := decLocGS l
          if (alGet p2.DuplicateLocalizers loc.LocalizerID).getD false ∧
              (loc.ILSCategory = "A" ∨ loc.ILSCategory = "L") then
            .ok (p2, "")
          else
            match processLocalizerD bt p2 loc with
            | .error _ => .ok (p2, marshalRecordStr r ++ "\n")
            | .ok contRecord =>
              .ok (p2,
                   marshalLocGSStr { loc with ContinuationRecordNumber := "1" } ++ "\n" ++
                   marshalLocGSContStr { contRecord with Data := loc.Data } ++ "\n")
        else .ok (p2, marshalRecordStr r ++ "\n")
      else .ok (p1, marshalRecordStr r ++ "\n")
  else .ok (p, marshalRecordStr r ++ "\n")

/-! ## Auxiliary definitions for the statements -/

/-- A concrete bearing function used to instantiate the abstract
golang-geo bearing in closed statements. -/
def btZero : BearingFn := fun _ _ => 0

/-- The approach map recorded for an airport identifier (empty when the
airport has no entry). -/
def apchsOf (p : Processor) (airportId : String) : List (String × LocApchData) :=
  ((alGet p.Airports airportId).map AirportData.Approaches).getD []

/-- One of the degrees / minutes / seconds sub-fields of a
coordinate string is non-numeric: the corresponding `strconv` parse of
`parsePoint` fails on the (latitude-padded) string. -/
def pointSubfieldsBad (s : String) : Prop :=
  let pt := s.toList
  let p := if pt.length = 9 then pt.take 1 ++ '0' :: pt.drop 1 else pt
  goAtoi (slice p 1 4) = none ∨ goAtoi (slice p 4 6) = none ∨
    goParseFloat5 (slice p 6 8 ++ '.' :: slice p 8 10) = none

/-- A coordinate string `parsePoint` rejects: length outside [9, 10], or a
non-numeric sub-field. -/
def badPointInput (s : String) : Prop :=
  s.length < 9 ∨ 10 < s.length ∨ pointSubfieldsBad s

/-- The airport upsert inlined in the two-pass engine's `processRecord`,
as a named function for use in statements. -/
def ensureAirportD (p : ProcessorD) (airportId : String) : ProcessorD :=
  match alGet p.Airports airportId with
  | some _ => p
  | none => { p with Airports := p.Airports ++ [(airportId, emptyAirportData)] }

/-- A fixture two-pass processor: airport KHWD indexed, localizer IHWD
marked duplicated, the removal policy enabled. -/
def c9Proc : ProcessorD where
  Airports := [("KHWD", emptyAirportData)]
  OtherWaypoints := []
  DuplicateLocalizers := [("IHWD", true)]
  RemoveDuplicateLocalizers := true

/-- A fixture index for exercising the correlated-localizer path: airport
KHWD holds one terminal waypoint FERNE and one approach whose recommended
navaid is the localizer IHWD with final approach fix FERNE. -/
def c1Proc : Processor where
  Airports := [("KHWD",
    { Waypoints := [("FERNE", ((38 : ℚ), (-122 : ℚ)))]
      Approaches := [("L28L", { FinalApproachFix := "FERNE", LocalizerID := "IHWD" })] })]
  OtherWaypoints := []

end Cifp
namespace Cifp

theorem rtrimList_sub_eq (l : List Char) :
    rtrimList l ++ List.replicate (l.length - (rtrimList l).length) ' ' = l := by
  unfold rtrimList
  set p : Char → Bool := fun c => decide (c = ' ') with hp
  have hsplit : l.reverse.takeWhile p ++ l.reverse.dropWhile p = l.reverse :=
    List.takeWhile_append_dropWhile p l.reverse
  have hrev : l = (l.reverse.dropWhile p).reverse ++ (l.reverse.takeWhile p).reverse := by
    conv_lhs => rw [← l.reverse_reverse, ← hsplit]
    rw [List.reverse_append]
  have hall : (l.reverse.takeWhile p) = List.replicate (l.reverse.takeWhile p).length ' ' := by
    rw [List.eq_replicate_iff]
    refine ⟨rfl, fun b hb => ?_⟩
    have := List.mem_takeWhile_imp hb
    simpa [hp] using this
  have hlen : l.length - ((l.reverse.dropWhile p).reverse).length
      = (l.reverse.takeWhile p).length := by
    conv_lhs => rw [hrev]
    simp [List.length_append]
  rw [hlen, ← List.reverse_replicate, ← hall, ← hrev]

theorem rtrimList_length_le (l : List Char) : (rtrimList l).length ≤ l.length := by
  conv_rhs => rw [← rtrimList_sub_eq l]
  simp

theorem rpadT_rawField (l : List Char) (a b : Nat)
    (h : (fieldCols l a b).length = b - a + 1) :
    rpadT (b - a + 1) (rawField l a b) = fieldCols l a b := by
  unfold rpadT rawField
  have h1 : (rtrimList (fieldCols l a b)).length ≤ b - a + 1 :=
    h ▸ rtrimList_length_le _
  have h2 : (String.mk (rtrimList (fieldCols l a b))).toList = rtrimList (fieldCols l a b) := rfl
  rw [h2, List.take_of_length_le h1, ← h]
  exact rtrimList_sub_eq _

theorem fieldCols_length (l : List Char) (a b : Nat) (ha : 1 ≤ a) (hab : a ≤ b)
    (hb : b ≤ l.length) : (fieldCols l a b).length = b - a + 1 := by
  unfold fieldCols
  rw [List.length_take, List.length_drop]
  omega

theorem fieldCols_glue (l : List Char) (a b c : Nat) (ha : 1 ≤ a) (hab : a ≤ b)
    (hbc : b < c) : fieldCols l a b ++ fieldCols l (b + 1) c = fieldCols l a c := by
  unfold fieldCols
  have h1 : l.drop (b + 1 - 1) = (l.drop (a - 1)).drop (b - a + 1) := by
    rw [List.drop_drop]
    congr 1
    omega
  rw [h1, ← List.take_add]
  congr 1
  omega

theorem marshalRecord_roundtrip (l : List Char) (h : l.length = 132) :
    marshalRecord (decRecordRaw l) = l := by
  have e1 : rpadT 1 (rawField l 1 1) = fieldCols l 1 1 :=
    rpadT_rawField l 1 1 (fieldCols_length l 1 1 (by omega) (by omega) (by omega))
  have e2 : rpadT 3 (rawField l 2 4) = fieldCols l 2 4 :=
    rpadT_rawField l 2 4 (fieldCols_length l 2 4 (by omega) (by omega) (by omega))
  have e3 : rpadT 1 (rawField l 5 5) = fieldCols l 5 5 :=
    rpadT_rawField l 5 5 (fieldCols_length l 5 5 (by omega) (by omega) (by omega))
  have e4 : rpadT 1 (rawField l 6 6) = fieldCols l 6 6 :=
    rpadT_rawField l 6 6 (fieldCols_length l 6 6 (by omega) (by omega) (by omega))
  have e5 : rpadT 117 (rawField l 7 123) = fieldCols l 7 123 :=
    rpadT_rawField l 7 123 (fieldCols_length l 7 123 (by omega) (by omega) (by omega))
  have e6 : rpadT 5 (rawField l 124 128) = fieldCols l 124 128 :=
    rpadT_rawField l 124 128 (fieldCols_length l 124 128 (by omega) (by omega) (by omega))
  have e7 : rpadT 4 (rawField l 129 132) = fieldCols l 129 132 :=
    rpadT_rawField l 129 132 (fieldCols_length l 129 132 (by omega) (by omega) (by omega))
  show rpadT 1 (rawField l 1 1) ++ rpadT 3 (rawField l 2 4) ++ rpadT 1 (rawField l 5 5) ++
      rpadT 1 (rawField l 6 6) ++ rpadT 117 (rawField l 7 123) ++ rpadT 5 (rawField l 124 128) ++
      rpadT 4 (rawField l 129 132) = l
  rw [e1, e2, e3, e4, e5, e6, e7]
  rw [fieldCols_glue l 1 1 4 (by omega) (by omega) (by omega)]
  rw [fieldCols_glue l 1 4 5 (by omega) (by omega) (by omega)]
  rw [fieldCols_glue l 1 5 6 (by omega) (by omega) (by omega)]
  rw [fieldCols_glue l 1 6 123 (by omega) (by omega) (by omega)]
  rw [fieldCols_glue l 1 123 128 (by omega) (by omega) (by omega)]
  rw [fieldCols_glue l 1 128 132 (by omega) (by omega) (by omega)]
  unfold fieldCols
  simp only [Nat.sub_self, List.drop_zero]
  exact List.take_of_length_le (by omega)

theorem stringMk_toList (s : String) : String.mk s.toList = s := rfl

theorem string_length_toList (s : String) : s.toList.length = s.length := rfl

theorem marshalRecordStr_roundtrip (line : String) (h : line.length = 132) :
    marshalRecordStr (decRecordRaw line.toList) = line := by
  unfold marshalRecordStr
  rw [marshalRecord_roundtrip line.toList (by rw [string_length_toList, h])]
  exact stringMk_toList line

theorem parsePoint_swap (c1 c2 : Char) (cs : List Char) (d m : Int) (s : ℚ)
    (h1 : ¬(c1 = 'S' ∨ c1 = 'W')) (h2 : c2 = 'S' ∨ c2 = 'W')
    (h : parsePoint (c1 :: cs) = .ok (d, m, s)) :
    parsePoint (c2 :: cs) = .ok (-d, -m, -s) := by
  unfold parsePoint at h ⊢
  simp only [List.length_cons] at h ⊢
  by_cases hlen : cs.length + 1 < 9 ∨ 10 < cs.length + 1
  · rw [if_pos hlen] at h
    exact absurd h (by simp)
  rw [if_neg hlen] at h ⊢
  simp only [List.drop_succ_cons, List.drop_zero] at h ⊢
  set t : List Char := if cs.length + 1 = 9 then '0' :: cs else cs with ht
  have hT : (if cs.length + 1 = 9 then List.take 1 (c1 :: cs) ++ '0' :: cs else c1 :: cs)
      = c1 :: t := by
    by_cases h9 : cs.length + 1 = 9 <;> simp [ht, h9]
  have hT2 : (if cs.length + 1 = 9 then List.take 1 (c2 :: cs) ++ '0' :: cs else c2 :: cs)
      = c2 :: t := by
    by_cases h9 : cs.length + 1 = 9 <;> simp [ht, h9]
  rw [hT] at h
  rw [hT2]
  simp only [slice, List.drop_succ_cons, List.drop_zero, List.headD_cons] at h ⊢
  rw [if_neg h1] at h
  rw [if_pos h2]
  cases hA : goAtoi (List.take (4 - 1) t) with
  | none => rw [hA] at h; exact absurd h (by simp)
  | some deg =>
    rw [hA] at h
    cases hB : goAtoi (List.take (6 - 4) (List.drop 3 t)) with
    | none => rw [hB] at h; exact absurd h (by simp)
    | some minu =>
      rw [hB] at h
      cases hC : goParseFloat5
          (List.take (8 - 6) (List.drop 5 t) ++ '.' :: List.take (10 - 8) (List.drop 7 t)) with
      | none => rw [hC] at h; exact absurd h (by simp)
      | some sec =>
        rw [hC] at h
        simp only [Except.ok.injEq, Prod.mk.injEq] at h
        obtain ⟨hd, hm, hs⟩ := h
        simp only [Except.ok.injEq, Prod.mk.injEq]
        refine ⟨by omega, by omega, ?_⟩
        rw [← hs]
        push_cast
        ring

theorem latLon_swap_lat (cs : List Char) (lon : String) (a b : ℚ)
    (h : LatLon (String.mk ('N' :: cs)) lon = .ok (a, b)) :
    LatLon (String.mk ('S' :: cs)) lon = .ok (-a, b) := by
  unfold LatLon at h ⊢
  have htl : (String.mk ('N' :: cs)).toList = 'N' :: cs := rfl
  have htl2 : (String.mk ('S' :: cs)).toList = 'S' :: cs := rfl
  rw [htl] at h
  rw [htl2]
  cases hP : parsePoint ('N' :: cs) with
  | error e => rw [hP] at h; exact absurd h (by simp)
  | ok trip =>
    obtain ⟨d, m, sec⟩ := trip
    rw [hP] at h
    rw [parsePoint_swap 'N' 'S' cs d m sec (by simp) (by simp) hP]
    cases hQ : parsePoint lon.toList with
    | error e => rw [hQ] at h; exact absurd h (by simp)
    | ok trip2 =>
      obtain ⟨d2, m2, s2⟩ := trip2
      rw [hQ] at h
      simp only [Except.ok.injEq, Prod.mk.injEq] at h ⊢
      obtain ⟨ha, hb⟩ := h
      refine ⟨?_, hb⟩
      rw [← ha]
      push_cast
      ring

theorem latLon_swap_lon (lat : String) (cs : List Char) (a b : ℚ)
    (h : LatLon lat (String.mk ('E' :: cs)) = .ok (a, b)) :
    LatLon lat (String.mk ('W' :: cs)) = .ok (a, -b) := by
  unfold LatLon at h ⊢
  have htl : (String.mk ('E' :: cs)).toList = 'E' :: cs := rfl
  have htl2 : (String.mk ('W' :: cs)).toList = 'W' :: cs := rfl
  rw [htl] at h
  rw [htl2]
  cases hP : parsePoint lat.toList with
  | error e => rw [hP] at h; exact absurd h (by simp)
  | ok trip =>
    obtain ⟨d, m, sec⟩ := trip
    rw [hP] at h
    cases hQ : parsePoint ('E' :: cs) with
    | error e => rw [hQ] at h; exact absurd h (by simp)
    | ok trip2 =>
      obtain ⟨d2, m2, s2⟩ := trip2
      rw [hQ] at h
      rw [parsePoint_swap 'E' 'W' cs d2 m2 s2 (by simp) (by simp) hQ]
      simp only [Except.ok.injEq, Prod.mk.injEq] at h ⊢
      obtain ⟨ha, hb⟩ := h
      refine ⟨ha, ?_⟩
      rw [← hb]
      push_cast
      ring

theorem parsePoint_error_of_bad (s : String) (hbad : badPointInput s) :
    ∃ e, parsePoint s.toList = .error e := by
  unfold badPointInput at hbad
  unfold parsePoint
  by_cases hlen : s.toList.length < 9 ∨ 10 < s.toList.length
  · rw [if_pos hlen]
    exact ⟨_, rfl⟩
  · rw [if_neg hlen]
    simp only []
    have hsub : pointSubfieldsBad s := by
      rcases hbad with h | h | h
      · exact absurd (Or.inl (string_length_toList s ▸ h)) hlen
      · exact absurd (Or.inr (string_length_toList s ▸ h)) hlen
      · exact h
    unfold pointSubfieldsBad at hsub
    rcases hsub with h | h | h
    · rw [h]
      exact ⟨_, rfl⟩
    · cases hA : goAtoi (slice (if s.toList.length = 9 then
          s.toList.take 1 ++ '0' :: s.toList.drop 1 else s.toList) 1 4) with
      | none => exact ⟨_, rfl⟩
      | some deg =>
        rw [h]
        exact ⟨_, rfl⟩
    · cases hA : goAtoi (slice (if s.toList.length = 9 then
          s.toList.take 1 ++ '0' :: s.toList.drop 1 else s.toList) 1 4) with
      | none => exact ⟨_, rfl⟩
      | some deg =>
        cases hB : goAtoi (slice (if s.toList.length = 9 then
            s.toList.take 1 ++ '0' :: s.toList.drop 1 else s.toList) 4 6) with
        | none => exact ⟨_, rfl⟩
        | some minu =>
          rw [h]
          exact ⟨_, rfl⟩

theorem latLon_error_of_bad (lat lon : String)
    (hbad : badPointInput lat ∨ badPointInput lon) :
    ∃ e, LatLon lat lon = .error e := by
  unfold LatLon
  rcases hbad with h | h
  · obtain ⟨e, he⟩ := parsePoint_error_of_bad lat h
    rw [he]
    exact ⟨_, rfl⟩
  · cases hP : parsePoint lat.toList with
    | error e => exact ⟨_, rfl⟩
    | ok trip =>
      obtain ⟨d, m, sec⟩ := trip
      obtain ⟨e, he⟩ := parsePoint_error_of_bad lon h
      rw [he]
      exact ⟨_, rfl⟩

/-- C4: `LatLon("N39513881", "E104450794")` is approximately
`(39.860781, 104.752206)` (within 1e-4, the tolerance of the repository's
own test); replacing the leading 'N' by 'S' (resp. 'E' by 'W') exactly
negates the latitude (resp. longitude); and `LatLon` errors whenever an
input string's length is outside [9, 10] or a degrees / minutes / seconds
sub-field is non-numeric. -/
theorem c4_latlon_codec :
    (∃ ll : ℚ × ℚ, LatLon "N39513881" "E104450794" = .ok ll ∧
      |ll.1 - 39860781 / 1000000| < 1 / 10000 ∧ |ll.2 - 104752206 / 1000000| < 1 / 10000) ∧
    (∀ (cs : List Char) (lon : String) (a b : ℚ),
      LatLon (String.mk ('N' :: cs)) lon = .ok (a, b) →
      LatLon (String.mk ('S' :: cs)) lon = .ok (-a, b)) ∧
    (∀ (lat : String) (cs : List Char) (a b : ℚ),
      LatLon lat (String.mk ('E' :: cs)) = .ok (a, b) →
      LatLon lat (String.mk ('W' :: cs)) = .ok (a, -b)) ∧
    (∀ lat lon : String, badPointInput lat ∨ badPointInput lon →
      ∃ e, LatLon lat lon = .error e) := by
  refine ⟨⟨_, rfl, ?_, ?_⟩, latLon_swap_lat, latLon_swap_lon, latLon_error_of_bad⟩
  · simp [digitVal]
    norm_num [abs_lt]
  · simp [digitVal]
    norm_num [abs_lt]

/-- Witness for C4 at concrete inputs: the example coordinate pair, its
two hemisphere flips, and a malformed-degrees input that errors. -/
theorem c4_latlon_codec_witness :
    ∃ a b : ℚ, LatLon "N39513881" "E104450794" = .ok (a, b) ∧
      LatLon "S39513881" "E104450794" = .ok (-a, b) ∧
      LatLon "N39513881" "W104450794" = .ok (a, -b) ∧
      ∃ e, LatLon "NBADDATA!" "W122023769" = .error e := by
  obtain ⟨⟨a, b⟩, h, _, _⟩ := c4_latlon_codec.1
  refine ⟨a, b, h, ?_, ?_, ?_⟩
  · exact c4_latlon_codec.2.1 "39513881".toList "E104450794" a b h
  · exact c4_latlon_codec.2.2.1 "N39513881" "104450794".toList a b h
  · refine c4_latlon_codec.2.2.2 "NBADDATA!" "W122023769" (Or.inl ?_)
    unfold badPointInput pointSubfieldsBad
    right; right; left
    rfl

theorem natDigitsAux_irrel (f1 : Nat) : ∀ (f2 m : Nat), m < f1 → m < f2 →
    natDigitsAux f1 m = natDigitsAux f2 m := by
  induction f1 with
  | zero => intro f2 m h1 _; omega
  | succ f ih =>
    intro f2 m h1 h2
    cases f2 with
    | zero => omega
    | succ g =>
      show natDigitsAux (f + 1) m = natDigitsAux (g + 1) m
      unfold natDigitsAux
      by_cases hm : m < 10
      · rw [if_pos hm, if_pos hm]
      · rw [if_neg hm, if_neg hm]
        have hdiv : m / 10 < m := Nat.div_lt_self (by omega) (by omega)
        rw [ih g (m / 10) (by omega) (by omega)]

theorem natDigits_eq (m : Nat) :
    natDigits m = if m < 10 then [decDigit m] else natDigits (m / 10) ++ [decDigit (m % 10)] := by
  have h1 : natDigitsAux (m + 1) m
      = if m < 10 then [decDigit m] else natDigitsAux m (m / 10) ++ [decDigit (m % 10)] := by
    rw [natDigitsAux]
  by_cases hm : m < 10
  · rw [if_pos hm]
    unfold natDigits
    rw [h1, if_pos hm]
  · rw [if_neg hm]
    unfold natDigits
    rw [h1, if_neg hm]
    have hdiv : m / 10 < m := Nat.div_lt_self (by omega) (by omega)
    rw [natDigitsAux_irrel m (m / 10 + 1) (m / 10) (by omega) (by omega)]

theorem natDigits_length_pos (m : Nat) : 1 ≤ (natDigits m).length := by
  rw [natDigits_eq]
  by_cases hm : m < 10
  · simp [hm]
  · simp [hm]

theorem natDigits_length_le (k : Nat) : ∀ m : Nat, m < 10 ^ (k + 1) →
    (natDigits m).length ≤ k + 1 := by
  induction k with
  | zero =>
    intro m hm
    rw [natDigits_eq, if_pos (by simpa using hm)]
    simp
  | succ k ih =>
    intro m hm
    rw [natDigits_eq]
    by_cases h10 : m < 10
    · simp [h10]
    · rw [if_neg h10]
      have hdivlt : m / 10 < 10 ^ (k + 1) := by
        rw [Nat.div_lt_iff_lt_mul (by omega)]
        calc m < 10 ^ (k + 1 + 1) := hm
        _ = 10 ^ (k + 1) * 10 := by ring
      have := ih (m / 10) hdivlt
      simp only [List.length_append, List.length_cons, List.length_nil]
      omega

theorem padDigits_length (k : Nat) : ∀ m : Nat, (padDigits k m).length = k := by
  induction k with
  | zero => intro m; rfl
  | succ k ih =>
    intro m
    unfold padDigits
    simp [ih]

theorem padDigits_zero_eq (k : Nat) : padDigits k 0 = List.replicate k '0' := by
  induction k with
  | zero => rfl
  | succ k ih =>
    unfold padDigits
    rw [Nat.zero_div, ih, Nat.zero_mod]
    rw [show decDigit 0 = '0' from rfl, ← List.replicate_succ' k '0']

theorem padDigits_eq_pad (k : Nat) : ∀ m : Nat, m < 10 ^ (k + 1) →
    padDigits (k + 1) m
      = List.replicate ((k + 1) - (natDigits m).length) '0' ++ natDigits m := by
  induction k with
  | zero =>
    intro m hm
    have h10 : m < 10 := by simpa using hm
    show padDigits 0 (m / 10) ++ [decDigit (m % 10)] = _
    rw [natDigits_eq, if_pos h10, Nat.mod_eq_of_lt h10]
    simp [padDigits]
  | succ k ih =>
    intro m hm
    show padDigits (k + 1) (m / 10) ++ [decDigit (m % 10)] = _
    by_cases h10 : m < 10
    · rw [Nat.div_eq_of_lt h10, Nat.mod_eq_of_lt h10, padDigits_zero_eq,
          natDigits_eq, if_pos h10]
      simp only [List.length_cons, List.length_nil]
      rfl
    · have hdivlt : m / 10 < 10 ^ (k + 1) := by
        rw [Nat.div_lt_iff_lt_mul (by omega)]
        calc m < 10 ^ (k + 1 + 1) := hm
        _ = 10 ^ (k + 1) * 10 := by ring
      rw [ih (m / 10) hdivlt]
      rw [natDigits_eq m, if_neg h10]
      have hlen : (natDigits (m / 10)).length ≤ k + 1 := natDigits_length_le k _ hdivlt
      simp only [List.length_append, List.length_cons, List.length_nil, List.append_assoc]
      have harith : k + 1 - (natDigits (m / 10)).length
          = k + 1 + 1 - ((natDigits (m / 10)).length + (0 + 1)) := by omega
      rw [harith]

theorem padDigits_split (n : Nat) :
    padDigits 5 n = padDigits 3 (n / 100) ++ padDigits 2 (n % 100) := by
  have e1 : n / 10 / 10 = n / 100 := by omega
  have e2 : n % 100 / 10 % 10 = n / 10 % 10 := by omega
  have e3 : n % 100 % 10 = n % 10 := by omega
  show padDigits 3 (n / 10 / 10) ++ [decDigit (n / 10 % 10)] ++ [decDigit (n % 10)]
      = padDigits 3 (n / 100) ++
        (padDigits 0 (n % 100 / 10 / 10) ++ [decDigit (n % 100 / 10 % 10)] ++ [decDigit (n % 100 % 10)])
  rw [e1, e2, e3]
  simp [padDigits, List.append_assoc]

theorem encodeBearing_spec_eq (q : ℚ) (h0 : 0 ≤ q) (h360 : q < 360) :
    EncodeBearing q = encodeBearingSpec q ∧ (EncodeBearing q).length = 5 := by
  have hr0 : (0 : ℤ) ≤ round (q * 100) := by
    rw [round_eq]
    refine Int.le_floor.2 ?_
    push_cast
    linarith
  have hr1 : round (q * 100) < 36001 := by
    rw [round_eq]
    refine Int.floor_lt.2 ?_
    push_cast
    linarith
  set n : Nat := (round (q * 100)).toNat with hn
  have hb : n ≤ 36000 := by omega
  have hint : n / 100 < 10 ^ 3 := by
    norm_num
    omega
  set D : List Char := natDigits (n / 100) with hD
  have hD1 : 1 ≤ D.length := natDigits_length_pos _
  have hD3 : D.length ≤ 3 := natDigits_length_le 2 (n / 100) hint
  have hpadlen : (padDigits 2 (n % 100)).length = 2 := padDigits_length 2 _
  have hfmt : goFmt06_2 q
      = (List.replicate (3 - D.length) '0' ++ D) ++ '.' :: padDigits 2 (n % 100) := by
    unfold goFmt06_2 padL
    simp only []
    rw [← hn, ← hD]
    have hlen : (D ++ '.' :: padDigits 2 (n % 100)).length = D.length + 3 := by
      simp [hpadlen]
    rw [hlen, List.append_assoc]
    congr 2
    omega
  have hA : (List.replicate (3 - D.length) '0' ++ D).length = 3 := by
    simp only [List.length_append, List.length_replicate]
    omega
  have htake : (goFmt06_2 q).take 3 = List.replicate (3 - D.length) '0' ++ D := by
    rw [hfmt]
    exact List.take_left' hA
  have hdrop : (goFmt06_2 q).drop 4 = padDigits 2 (n % 100) := by
    rw [hfmt]
    have hre : (List.replicate (3 - D.length) '0' ++ D) ++ '.' :: padDigits 2 (n % 100)
        = ((List.replicate (3 - D.length) '0' ++ D) ++ ['.']) ++ padDigits 2 (n % 100) := by
      simp
    rw [hre]
    have hlen4 : ((List.replicate (3 - D.length) '0' ++ D) ++ ['.']).length = 4 := by
      simp only [List.length_append, List.length_replicate, List.length_cons, List.length_nil]
      omega
    exact List.drop_left' hlen4
  have hpad3 : padDigits 3 (n / 100) = List.replicate (3 - D.length) '0' ++ D :=
    hD ▸ padDigits_eq_pad 2 (n / 100) hint
  constructor
  · unfold EncodeBearing encodeBearingSpec
    simp only []
    rw [← hn, htake, hdrop, padDigits_split n, hpad3]
  · unfold EncodeBearing
    simp only [String.length]
    rw [htake, hdrop]
    simp only [List.length_append, List.length_replicate, hpadlen]
    omega

/-- C5: for every bearing in [0, 360), `EncodeBearing` renders it as the
five-character string of the bearing rounded to two decimal places, with
two implied fractional digits and a zero-padded integer part; in
particular `EncodeBearing 23.457 = "02346"` and
`EncodeBearing 123.45678 = "12346"`. -/
theorem c5_encode_bearing :
    (∀ q : ℚ, 0 ≤ q → q < 360 →
      EncodeBearing q = encodeBearingSpec q ∧ (EncodeBearing q).length = 5) ∧
    EncodeBearing (23457 / 1000) = "02346" ∧ EncodeBearing (12345678 / 100000) = "12346" := by
  refine ⟨encodeBearing_spec_eq, ?_, ?_⟩
  · rw [(encodeBearing_spec_eq (23457 / 1000) (by norm_num) (by norm_num)).1]
    unfold encodeBearingSpec
    have hr : round ((23457 / 1000 : ℚ) * 100) = 2346 := by
      rw [round_eq, show (23457 / 1000 : ℚ) * 100 + 1 / 2 = 23462 / 10 by norm_num,
          Int.floor_eq_iff]
      constructor <;> norm_num
    rw [hr]
    rfl
  · rw [(encodeBearing_spec_eq (12345678 / 100000) (by norm_num) (by norm_num)).1]
    unfold encodeBearingSpec
    have hr : round ((12345678 / 100000 : ℚ) * 100) = 12346 := by
      rw [round_eq, show (12345678 / 100000 : ℚ) * 100 + 1 / 2 = 1234617800 / 100000 by norm_num,
          Int.floor_eq_iff]
      constructor <;> norm_num
    rw [hr]
    rfl

/-- Witness for C5 at the concrete bearing 23.457. -/
theorem c5_encode_bearing_witness :
    (0 : ℚ) ≤ 23457 / 1000 ∧ (23457 / 1000 : ℚ) < 360 ∧
      EncodeBearing (23457 / 1000) = encodeBearingSpec (23457 / 1000) ∧
      (EncodeBearing (23457 / 1000)).length = 5 := by
  refine ⟨by norm_num, by norm_num, ?_⟩
  exact c5_encode_bearing.1 (23457 / 1000) (by norm_num) (by norm_num)

set_option maxHeartbeats 1000000 in
theorem processRecord_out (bt : BearingFn) (p : Processor) (line : String)
    (p' : Processor) (out : String)
    (h : processRecord bt p line = .ok (p', out)) :
    out = marshalRecordStr (decRecordRaw line.toList) ++ "\n" ∨
    ((decRecordRaw line.toList).SectionCode = SectionCodeAirport ∧
      (decAirportEnroute line.toList).SubsectionCode = SubsectionCodeLocGS) := by
  by_cases hloc : (decRecordRaw line.toList).SectionCode = SectionCodeAirport ∧
      (decAirportEnroute line.toList).SubsectionCode = SubsectionCodeLocGS
  · exact Or.inr hloc
  refine Or.inl ?_
  unfold processRecord at h
  simp only [] at h
  repeat' split at h
  all_goals try (exact absurd ⟨‹(decRecordRaw line.toList).SectionCode = SectionCodeAirport›,
    ‹(decAirportEnroute line.toList).SubsectionCode = SubsectionCodeLocGS›⟩ hloc)
  all_goals try (injection h with hpair)
  all_goals try (exact (congrArg Prod.snd hpair).symm)
  all_goals exact Except.noConfusion h

theorem alGet_append (m m' : List (String × AirportData)) (k : String) :
    alGet (m ++ m') k = match alGet m k with
      | some v => some v
      | none => alGet m' k := by
  induction m with
  | nil => rfl
  | cons kv rest ih =>
    obtain ⟨k1, v1⟩ := kv
    by_cases hk : k1 = k
    · simp [alGet, hk]
    · simp only [List.cons_append, alGet, if_neg hk]
      exact ih

theorem alGet_alPut_self {α : Type} (m : List (String × α)) (k : String) (v : α) :
    alGet (alPut m k v) k = some v := by
  induction m with
  | nil => simp [alPut, alGet]
  | cons kv rest ih =>
    obtain ⟨k1, v1⟩ := kv
    by_cases hk : k1 = k
    · simp [alPut, alGet, hk]
    · simp only [alPut, if_neg hk, alGet]
      exact ih

theorem alGet_ensureAirport_self (p : Processor) (k : String) :
    alGet (ensureAirport p k).Airports k
      = some ((alGet p.Airports k).getD emptyAirportData) := by
  unfold ensureAirport
  cases h : alGet p.Airports k with
  | some a => simp [h]
  | none =>
    simp only [Option.getD_none]
    rw [alGet_append, h]
    simp [alGet]

theorem alGet_ensureAirport_other (p : Processor) (k q : String) (hne : q ≠ k) :
    alGet (ensureAirport p k).Airports q = alGet p.Airports q := by
  unfold ensureAirport
  cases h : alGet p.Airports k with
  | some a => rfl
  | none =>
    simp only
    rw [alGet_append]
    cases hq : alGet p.Airports q with
    | some a => rfl
    | none =>
      show alGet [(k, emptyAirportData)] q = none
      unfold alGet
      rw [if_neg (fun hkq => hne hkq.symm)]
      rfl

theorem alGet_cons {α : Type} (k1 : String) (v1 : α) (rest : List (String × α)) (q : String) :
    alGet ((k1, v1) :: rest) q = if k1 = q then some v1 else alGet rest q := rfl

theorem alGet_modifyAirport (m : List (String × AirportData)) (key : String)
    (f : AirportData → AirportData) (q : String) :
    alGet (modifyAirport m key f) q
      = if q = key then (alGet m q).map f else alGet m q := by
  induction m with
  | nil => by_cases hq : q = key <;> simp [modifyAirport, alGet, hq]
  | cons kv rest ih =>
    obtain ⟨k1, v1⟩ := kv
    simp only [modifyAirport, List.map_cons] at ih ⊢
    by_cases hk : k1 = key
    · rw [if_pos hk, alGet_cons, alGet_cons]
      by_cases hq : k1 = q
      · rw [if_pos hq, if_pos (show q = key from hq ▸ hk), if_pos hq]
        rfl
      · have hqk : ¬q = key := fun h => hq (hk.trans h.symm)
        rw [if_neg hq, if_neg hqk, if_neg hq, ih, if_neg hqk]
    · rw [if_neg hk, alGet_cons, alGet_cons]
      by_cases hq : k1 = q
      · have hqk : ¬q = key := fun h => hk (hq.trans h)
        rw [if_pos hq, if_neg hqk, if_pos hq]
      · rw [if_neg hq, ih, if_neg hq]

/-- C3 (amended): for every full-width input line whose record kind the
engine does not transform (anything that is not an airport
localizer/glideslope record), whenever `processRecord` succeeds it returns
exactly the original line byte for byte followed by a newline. -/
theorem c3_passthrough_roundtrip (bt : BearingFn) (p : Processor) (line : String)
    (p' : Processor) (out : String) (hlen : line.length = 132)
    (hnotloc : ¬((decRecordRaw line.toList).SectionCode = SectionCodeAirport ∧
      (decAirportEnroute line.toList).SubsectionCode = SubsectionCodeLocGS))
    (h : processRecord bt p line = .ok (p', out)) :
    out = line ++ "\n" := by
  rcases processRecord_out bt p line p' out h with ho | hl
  · rw [ho, marshalRecordStr_roundtrip line hlen]
  · exact absurd hl hnotloc

/-- Counterexample to C3 as literally stated: an enroute-waypoint record
(a kind the engine does not transform) whose latitude sub-field is
non-numeric makes `processRecord` return an error, not the original line
plus newline. -/
theorem c3_counterexample :
    processRecord btZero newProcessor "SUSAEAENRT   SUNOL K20    C  RL NBAD00000W121000000                       E0132     NAR           SUNOL                    459212002"
      = .error (.enrouteWptLatLon (.latErr (.invalidDegrees ['0', 'B', 'A']))) ∧
    (processRecord btZero newProcessor "SUSAEAENRT   SUNOL K20    C  RL NBAD00000W121000000                       E0132     NAR           SUNOL                    459212002").isOk
      = false := ⟨rfl, rfl⟩

/-- Witness for the amended C3 at a concrete terminal-waypoint line. -/
theorem c3_passthrough_roundtrip_witness :
    ∃ p' out, processRecord btZero newProcessor "SUSAP KHWDK2CBOGRE K20    W     N37372195W122023769                       E0133     NAR           BOGRE                    107992002"
        = .ok (p', out) ∧
      out = "SUSAP KHWDK2CBOGRE K20    W     N37372195W122023769                       E0133     NAR           BOGRE                    107992002" ++ "\n" := by
  refine ⟨_, _, rfl, ?_⟩
  exact c3_passthrough_roundtrip btZero newProcessor _ _ _ (by decide) (by decide) rfl

theorem decApch_airport (l : List Char) :
    (decApch l).AirportID = (decAirportEnroute l).AirportID := rfl

theorem apchsOf_ensure (p : Processor) (k aid : String) :
    apchsOf (ensureAirport p k) aid = apchsOf p aid := by
  unfold apchsOf
  by_cases h : aid = k
  · subst h
    rw [alGet_ensureAirport_self]
    cases hG : alGet p.Airports aid <;> simp [emptyAirportData]
  · rw [alGet_ensureAirport_other p k aid h]

/-- C6: an approach-procedure leg record updates the airport's approach
map, upserting `approaches[ProcedureID] = {FixID, RecommendedNavaid}`,
exactly when the procedure identifier starts with 'I', 'L', 'U' or 'X'
and the waypoint description code has at least four characters with 'F'
fourth; otherwise every approach map is left unchanged.  The two guard
predicates are characterised by those letter conditions. -/
theorem c6_approach_map_update :
    (∀ apch : ApchProcedureRec, IsLocalizerFrontCourseApproach apch = true ↔
      ∃ c cs, apch.ProcedureID.toList = c :: cs ∧ (c = 'I' ∨ c = 'L' ∨ c = 'U' ∨ c = 'X')) ∧
    (∀ apch : ApchProcedureRec, IsFinalApproachFix apch = true ↔
      4 ≤ apch.WaypointDescriptionCode.length ∧
        apch.WaypointDescriptionCode.toList.getD 3 ' ' = 'F') ∧
    ∀ (bt : BearingFn) (p : Processor) (line : String),
      (decRecordRaw line.toList).SectionCode = SectionCodeAirport →
      (decAirportEnroute line.toList).SubsectionCode = SubsectionCodeApproachProcedure →
      ∃ p', processRecord bt p line
          = .ok (p', marshalRecordStr (decRecordRaw line.toList) ++ "\n") ∧
        ∀ aid, apchsOf p' aid =
          if aid = (decApch line.toList).AirportID ∧
              (IsLocalizerFrontCourseApproach (decApch line.toList) = true ∧
                IsFinalApproachFix (decApch line.toList) = true) then
            alPut (apchsOf p aid) (decApch line.toList).ProcedureID
              { FinalApproachFix := (decApch line.toList).FixID,
                LocalizerID := (decApch line.toList).RecommendedNavaid }
          else apchsOf p aid := by
  refine ⟨?_, ?_, ?_⟩
  · intro apch
    unfold IsLocalizerFrontCourseApproach
    cases hpl : apch.ProcedureID.toList with
    | nil => simp [hpl]
    | cons c tl => simp [hpl]
  · intro apch
    unfold IsFinalApproachFix
    simp
  intro bt p line hP hF
  have hrun : processRecord bt p line = .ok
      ((if IsLocalizerFrontCourseApproach (decApch line.toList)
            ∧ IsFinalApproachFix (decApch line.toList) then
          { ensureAirport p (decAirportEnroute line.toList).AirportID with
            Airports := (modifyAirport
              (ensureAirport p (decAirportEnroute line.toList).AirportID).Airports
              (decApch line.toList).AirportID
              (fun ad => { ad with Approaches := (alPut ad.Approaches
                  (decApch line.toList).ProcedureID
                  { FinalApproachFix := (decApch line.toList).FixID,
                    LocalizerID := (decApch line.toList).RecommendedNavaid }) })) }
        else ensureAirport p (decAirportEnroute line.toList).AirportID),
       marshalRecordStr (decRecordRaw line.toList) ++ "\n") := by
    unfold processRecord
    simp only []
    rw [hP, hF]
    rfl
  refine ⟨_, hrun, ?_⟩
  intro aid
  by_cases hcond : IsLocalizerFrontCourseApproach (decApch line.toList) = true
      ∧ IsFinalApproachFix (decApch line.toList) = true
  · rw [if_pos hcond]
    by_cases haid : aid = (decApch line.toList).AirportID
    · rw [if_pos ⟨haid, hcond⟩]
      unfold apchsOf
      rw [haid, alGet_modifyAirport, if_pos rfl,
          show (decApch line.toList).AirportID = (decAirportEnroute line.toList).AirportID
            from rfl,
          alGet_ensureAirport_self]
      cases hG : alGet p.Airports (decAirportEnroute line.toList).AirportID <;>
        simp [emptyAirportData]
    · rw [if_neg (fun hc => haid hc.1)]
      unfold apchsOf
      rw [alGet_modifyAirport, if_neg haid,
          alGet_ensureAirport_other p (decAirportEnroute line.toList).AirportID aid
            (fun h => haid h)]
  · rw [if_neg hcond, if_neg (fun hc => hcond hc.2), apchsOf_ensure]

/-- Witness for C6 at a concrete final-approach-fix leg record: the KHWD
approach map gains `L28L ↦ {FERNE, IHWD}`. -/
theorem c6_approach_map_update_witness :
    ∃ p', processRecord btZero newProcessor "SUSAP KHWDK2FL28L  L      020FERNEK2PC0E  F    CF IHWDK2      1079007428800053PI  + 02500                 OAK   K2D 0 DS   108521310"
        = .ok (p', marshalRecordStr (decRecordRaw ("SUSAP KHWDK2FL28L  L      020FERNEK2PC0E  F    CF IHWDK2      1079007428800053PI  + 02500                 OAK   K2D 0 DS   108521310").toList) ++ "\n") ∧
      apchsOf p' "KHWD" = [("L28L", { FinalApproachFix := "FERNE", LocalizerID := "IHWD" })] := by
  obtain ⟨p', hrun, hmap⟩ := c6_approach_map_update.2.2 btZero newProcessor
    "SUSAP KHWDK2FL28L  L      020FERNEK2PC0E  F    CF IHWDK2      1079007428800053PI  + 02500                 OAK   K2D 0 DS   108521310"
    (by decide) (by decide)
  refine ⟨p', hrun, ?_⟩
  rw [hmap "KHWD"]
  decide

theorem string_empty_append (s : String) : "" ++ s = s := by
  cases s
  rfl

theorem append_newline_ne_empty (s : String) : s ++ "\n" ≠ "" := by
  intro h
  have hlen := congrArg String.length h
  rw [String.length_append] at hlen
  rw [show ("\n").length = 1 from rfl, show ("").length = 0 from rfl] at hlen
  omega

/-- C7: navaid-section records ("D"): an NDB record inserts its decoded
position into the global waypoint map under its NDB identifier; a VHF
navaid record with a VOR position inserts under its VOR identifier; and a
VHF navaid record with an empty VOR latitude or longitude is passed
through unchanged — same state, no error. -/
theorem c7_navaid_index :
    (∀ (bt : BearingFn) (p : Processor) (line : String) (ll : GeoPoint),
      (decRecordRaw line.toList).SectionCode = SectionCodeNavaid →
      (decRecordRaw line.toList).SubsectionCode = SubsectionCodeNavaidNDB →
      LatLon (decNDB line.toList).NDBLatitude (decNDB line.toList).NDBLongitude = .ok ll →
      processRecord bt p line = .ok
        ({ p with OtherWaypoints := alPut p.OtherWaypoints (decNDB line.toList).NDBID ll },
         marshalRecordStr (decRecordRaw line.toList) ++ "\n") ∧
      alGet (alPut p.OtherWaypoints (decNDB line.toList).NDBID ll) (decNDB line.toList).NDBID
        = some ll) ∧
    (∀ (bt : BearingFn) (p : Processor) (line : String) (ll : GeoPoint),
      (decRecordRaw line.toList).SectionCode = SectionCodeNavaid →
      (decRecordRaw line.toList).SubsectionCode = SubsectionCodeNavaidVHF →
      (decVHF line.toList).VORLatitude ≠ "" →
      (decVHF line.toList).VORLongitude ≠ "" →
      LatLon (decVHF line.toList).VORLatitude (decVHF line.toList).VORLongitude = .ok ll →
      processRecord bt p line = .ok
        ({ p with OtherWaypoints := alPut p.OtherWaypoints (decVHF line.toList).VORID ll },
         marshalRecordStr (decRecordRaw line.toList) ++ "\n") ∧
      alGet (alPut p.OtherWaypoints (decVHF line.toList).VORID ll) (decVHF line.toList).VORID
        = some ll) ∧
    (∀ (bt : BearingFn) (p : Processor) (line : String),
      line.length = 132 →
      (decRecordRaw line.toList).SectionCode = SectionCodeNavaid →
      (decRecordRaw line.toList).SubsectionCode = SubsectionCodeNavaidVHF →
      ((decVHF line.toList).VORLatitude = "" ∨ (decVHF line.toList).VORLongitude = "") →
      processRecord bt p line = .ok (p, line ++ "\n")) := by
  refine ⟨?_, ?_, ?_⟩
  · intro bt p line ll hD hB hll
    refine ⟨?_, alGet_alPut_self _ _ _⟩
    unfold processRecord
    simp only []
    rw [hD, hB, hll]
    rfl
  · intro bt p line ll hD hV hlat hlon hll
    refine ⟨?_, alGet_alPut_self _ _ _⟩
    unfold processRecord
    simp only []
    rw [hD, hV, if_neg (not_or.2 ⟨hlat, hlon⟩), hll]
    rfl
  · intro bt p line hlen hD hV hemp
    have hrun : processRecord bt p line
        = .ok (p, marshalRecordStr (decRecordRaw line.toList) ++ "\n") := by
      unfold processRecord
      simp only []
      rw [hD, hV, if_pos hemp]
      rfl
    rw [hrun, marshalRecordStr_roundtrip line hlen]

/-- Witness for C7: the repository's NDB, VOR and DME-only test records. -/
theorem c7_navaid_index_witness :
    (∃ ll : GeoPoint,
      processRecord btZero newProcessor "SCANDB       ILI   PA004110H  W N59000000W155000000                       E0140           NARILIAMNA                       004122002"
        = .ok ({ newProcessor with OtherWaypoints := alPut newProcessor.OtherWaypoints "ILI" ll },
            marshalRecordStr (decRecordRaw ("SCANDB       ILI   PA004110H  W N59000000W155000000                       E0140           NARILIAMNA                       004122002").toList) ++ "\n")) ∧
    (∃ ll : GeoPoint,
      processRecord btZero newProcessor "SUSAD        PYE   K2011370VDHW N38000000W122000000    N38044712W122520418E0170013402     NARPOINT REYES                   236192002"
        = .ok ({ newProcessor with OtherWaypoints := alPut newProcessor.OtherWaypoints "PYE" ll },
            marshalRecordStr (decRecordRaw ("SUSAD        PYE   K2011370VDHW N38000000W122000000    N38044712W122520418E0170013402     NARPOINT REYES                   236192002").toList) ++ "\n")) ∧
    processRecord btZero newProcessor "SCAND        ADK   PA011400 DUW                    ADK N51521587W176402739E0070003291     NARMOUNT MOFFETT                 002361703"
      = .ok (newProcessor, "SCAND        ADK   PA011400 DUW                    ADK N51521587W176402739E0070003291     NARMOUNT MOFFETT                 002361703" ++ "\n") := by
  refine ⟨?_, ?_, ?_⟩
  · exact ⟨_, (c7_navaid_index.1 btZero newProcessor
      "SCANDB       ILI   PA004110H  W N59000000W155000000                       E0140           NARILIAMNA                       004122002"
      _ (by decide) (by decide) rfl).1⟩
  · exact ⟨_, (c7_navaid_index.2.1 btZero newProcessor
      "SUSAD        PYE   K2011370VDHW N38000000W122000000    N38044712W122520418E0170013402     NARPOINT REYES                   236192002"
      _ (by decide) (by decide) (by decide) (by decide) rfl).1⟩
  · exact c7_navaid_index.2.2 btZero newProcessor
      "SCAND        ADK   PA011400 DUW                    ADK N51521587W176402739E0070003291     NARMOUNT MOFFETT                 002361703"
      (by decide) (by decide) (by decide) (Or.inl (by decide))

/-- C2: a localizer primary record whose bearing synthesis fails
recoverably — no approach references its localizer identifier, or the
final-approach-fix identifier resolves in neither waypoint map, or its
own coordinates fail to parse — is re-emitted unmodified (one line plus
newline) with no error; and a whole `Process` run over such a record
still completes successfully. -/
theorem c2_recoverable_passthrough :
    (∀ (bt : BearingFn) (p : Processor) (line : String),
      line.length = 132 →
      (decRecordRaw line.toList).SectionCode = SectionCodeAirport →
      (decAirportEnroute line.toList).SubsectionCode = SubsectionCodeLocGS →
      ∀ a0, alGet (ensureAirport p (decAirportEnroute line.toList).AirportID).Airports
          (decLocGS line.toList).header.AirportID = some a0 →
      (ApproachForLoc a0 (decLocGS line.toList).LocalizerID = none ∨
        (∃ apch, ApproachForLoc a0 (decLocGS line.toList).LocalizerID = some apch ∧
          fafLookup (ensureAirport p (decAirportEnroute line.toList).AirportID) a0
            apch.FinalApproachFix = none) ∨
        (∃ apch fap e, ApproachForLoc a0 (decLocGS line.toList).LocalizerID = some apch ∧
          fafLookup (ensureAirport p (decAirportEnroute line.toList).AirportID) a0
            apch.FinalApproachFix = some fap ∧
          LatLon (decLocGS line.toList).LocalizerLatitude
            (decLocGS line.toList).LocalizerLongitude = .error e)) →
      processRecord bt p line
        = .ok (ensureAirport p (decAirportEnroute line.toList).AirportID, line ++ "\n")) ∧
    (∀ (bt : BearingFn) (line : String),
      line.length = 132 →
      (decRecordRaw line.toList).SectionCode = SectionCodeAirport →
      (decAirportEnroute line.toList).SubsectionCode = SubsectionCodeLocGS →
      ProcessLines bt [line] = .ok (line ++ "\n")) := by
  have main : ∀ (bt : BearingFn) (p : Processor) (line : String),
      line.length = 132 →
      (decRecordRaw line.toList).SectionCode = SectionCodeAirport →
      (decAirportEnroute line.toList).SubsectionCode = SubsectionCodeLocGS →
      ∀ a0, alGet (ensureAirport p (decAirportEnroute line.toList).AirportID).Airports
          (decLocGS line.toList).header.AirportID = some a0 →
      (ApproachForLoc a0 (decLocGS line.toList).LocalizerID = none ∨
        (∃ apch, ApproachForLoc a0 (decLocGS line.toList).LocalizerID = some apch ∧
          fafLookup (ensureAirport p (decAirportEnroute line.toList).AirportID) a0
            apch.FinalApproachFix = none) ∨
        (∃ apch fap e, ApproachForLoc a0 (decLocGS line.toList).LocalizerID = some apch ∧
          fafLookup (ensureAirport p (decAirportEnroute line.toList).AirportID) a0
            apch.FinalApproachFix = some fap ∧
          LatLon (decLocGS line.toList).LocalizerLatitude
            (decLocGS line.toList).LocalizerLongitude = .error e)) →
      processRecord bt p line
        = .ok (ensureAirport p (decAirportEnroute line.toList).AirportID, line ++ "\n") := by
    intro bt p line hlen hP hI a0 ha0 hdisj
    have hploc : ∃ e, processLocalizer bt
        (ensureAirport p (decAirportEnroute line.toList).AirportID)
        (decLocGS line.toList) = .error e := by
      unfold processLocalizer
      rw [ha0]
      simp only []
      rcases hdisj with hnone | ⟨apch, hap, hfaf⟩ | ⟨apch, fap, e, hap, hfaf, hll⟩
      · rw [hnone]
        exact ⟨_, rfl⟩
      · rw [hap]
        simp only []
        rw [hfaf]
        exact ⟨_, rfl⟩
      · rw [hap]
        simp only []
        rw [hfaf]
        simp only []
        rw [hll]
        exact ⟨_, rfl⟩
    obtain ⟨e, hploc⟩ := hploc
    have hshape : processRecord bt p line
        = match processLocalizer bt
            (ensureAirport p (decAirportEnroute line.toList).AirportID)
            (decLocGS line.toList) with
          | .error _ => .ok (ensureAirport p (decAirportEnroute line.toList).AirportID,
              marshalRecordStr (decRecordRaw line.toList) ++ "\n")
          | .ok contRecord => .ok (ensureAirport p (decAirportEnroute line.toList).AirportID,
              marshalLocGSStr { decLocGS line.toList with ContinuationRecordNumber := "1" }
                ++ "\n" ++
                marshalLocGSContStr { contRecord with Data := (decLocGS line.toList).Data }
                ++ "\n") := by
      unfold processRecord
      simp only []
      rw [hP, hI]
      rfl
    have hrun : processRecord bt p line
        = .ok (ensureAirport p (decAirportEnroute line.toList).AirportID,
            marshalRecordStr (decRecordRaw line.toList) ++ "\n") := by
      rw [hshape, hploc]
    rw [hrun, marshalRecordStr_roundtrip line hlen]
  refine ⟨main, ?_⟩
  intro bt line hlen hP hI
  have ha0 : alGet (ensureAirport newProcessor
        (decAirportEnroute line.toList).AirportID).Airports
      (decLocGS line.toList).header.AirportID = some emptyAirportData := by
    rw [show (decLocGS line.toList).header.AirportID
        = (decAirportEnroute line.toList).AirportID from rfl]
    rw [alGet_ensureAirport_self]
    rfl
  have h1 := main bt newProcessor line hlen hP hI emptyAirportData ha0 (Or.inl rfl)
  unfold ProcessLines processLoop
  rw [h1]
  simp only []
  rw [string_empty_append]
  rfl

/-- Witness for C2: a localizer record processed over an empty index (no
approach references it) passes through unmodified, alone and as a whole
run. -/
theorem c2_recoverable_passthrough_witness :
    processRecord btZero newProcessor "SUSAP KHWDK2IIHWD0   111150RW28LN37394620W1220746752879                   0109     0500   E0150                            108901212"
      = .ok (ensureAirport newProcessor
          (decAirportEnroute ("SUSAP KHWDK2IIHWD0   111150RW28LN37394620W1220746752879                   0109     0500   E0150                            108901212").toList).AirportID,
        "SUSAP KHWDK2IIHWD0   111150RW28LN37394620W1220746752879                   0109     0500   E0150                            108901212" ++ "\n") ∧
    ProcessLines btZero ["SUSAP KHWDK2IIHWD0   111150RW28LN37394620W1220746752879                   0109     0500   E0150                            108901212"]
      = .ok ("SUSAP KHWDK2IIHWD0   111150RW28LN37394620W1220746752879                   0109     0500   E0150                            108901212" ++ "\n") := by
  constructor
  · exact c2_recoverable_passthrough.1 btZero newProcessor
      "SUSAP KHWDK2IIHWD0   111150RW28LN37394620W1220746752879                   0109     0500   E0150                            108901212"
      (by decide) (by decide) (by decide) emptyAirportData rfl
      (Or.inl rfl)
  · exact c2_recoverable_passthrough.2 btZero
      "SUSAP KHWDK2IIHWD0   111150RW28LN37394620W1220746752879                   0109     0500   E0150                            108901212"
      (by decide) (by decide) (by decide)

/-- C1: a localizer primary record that correlates successfully — its
airport entry holds an approach referencing its localizer identifier, the
final-approach-fix position resolves, and its own coordinates parse —
makes `processRecord` emit two newline-terminated lines: the primary
record with continuation record number forced to "1", then a simulation
continuation record with continuation record number "2", application type
"S", bearing source "N", the `Data` carry-over copied from the primary
record, and the true bearing rendered by `EncodeBearing` from the
fix-to-localizer azimuth, with 360 added when the library returns a
negative value. -/
theorem c1_localizer_continuation (bt : BearingFn) (p : Processor) (line : String)
    (hP : (decRecordRaw line.toList).SectionCode = SectionCodeAirport)
    (hI : (decAirportEnroute line.toList).SubsectionCode = SubsectionCodeLocGS)
    (a0 : AirportData) (apch : LocApchData) (fap locPos : GeoPoint)
    (ha0 : alGet (ensureAirport p (decAirportEnroute line.toList).AirportID).Airports
        (decLocGS line.toList).header.AirportID = some a0)
    (hap : ApproachForLoc a0 (decLocGS line.toList).LocalizerID = some apch)
    (hfaf : fafLookup (ensureAirport p (decAirportEnroute line.toList).AirportID) a0
        apch.FinalApproachFix = some fap)
    (hll : LatLon (decLocGS line.toList).LocalizerLatitude
        (decLocGS line.toList).LocalizerLongitude = .ok locPos) :
    processRecord bt p line
      = .ok (ensureAirport p (decAirportEnroute line.toList).AirportID,
          marshalLocGSStr { decLocGS line.toList with ContinuationRecordNumber := "1" }
            ++ "\n" ++
          marshalLocGSContStr
            { header := (decLocGS line.toList).header
              LocalizerID := (decLocGS line.toList).LocalizerID
              ILSCategory := (decLocGS line.toList).ILSCategory
              ContinuationRecordNumber := "2"
              ApplicationType := "S"
              FacilityCharacteristics := ""
              LocalizerTrueBearing := EncodeBearing
                (if bt fap locPos < 0 then 360 + bt fap locPos else bt fap locPos)
              LocalizerBearingSource := "N"
              GlideSlopeBeamWidth := ""
              ApproachRouteIdent1 := ""
              ApproachRouteIdent2 := ""
              ApproachRouteIdent3 := ""
              ApproachRouteIdent4 := ""
              ApproachRouteIdent5 := ""
              Data := (decLocGS line.toList).Data } ++ "\n") := by
  have hploc : processLocalizer bt
      (ensureAirport p (decAirportEnroute line.toList).AirportID)
      (decLocGS line.toList)
      = .ok { header := (decLocGS line.toList).header
              LocalizerID := (decLocGS line.toList).LocalizerID
              ILSCategory := (decLocGS line.toList).ILSCategory
              ContinuationRecordNumber := "2"
              ApplicationType := "S"
              FacilityCharacteristics := ""
              LocalizerTrueBearing := EncodeBearing
                (if bt fap locPos < 0 then 360 + bt fap locPos else bt fap locPos)
              LocalizerBearingSource := "N"
              GlideSlopeBeamWidth := ""
              ApproachRouteIdent1 := ""
              ApproachRouteIdent2 := ""
              ApproachRouteIdent3 := ""
              ApproachRouteIdent4 := ""
              ApproachRouteIdent5 := ""
              Data := "" } := by
    unfold processLocalizer
    rw [ha0]
    simp only []
    rw [hap]
    simp only []
    rw [hfaf]
    simp only []
    rw [hll]
    rfl
  have hshape : processRecord bt p line
      = match processLocalizer bt
          (ensureAirport p (decAirportEnroute line.toList).AirportID)
          (decLocGS line.toList) with
        | .error _ => .ok (ensureAirport p (decAirportEnroute line.toList).AirportID,
            marshalRecordStr (decRecordRaw line.toList) ++ "\n")
        | .ok contRecord => .ok (ensureAirport p (decAirportEnroute line.toList).AirportID,
            marshalLocGSStr { decLocGS line.toList with ContinuationRecordNumber := "1" }
              ++ "\n" ++
              marshalLocGSContStr { contRecord with Data := (decLocGS line.toList).Data }
              ++ "\n") := by
    unfold processRecord
    simp only []
    rw [hP, hI]
    rfl
  rw [hshape, hploc]

/-- Witness for C1: the repository localizer record over the fixture index
with airport KHWD, waypoint FERNE and an approach referencing IHWD,
processed with the constant-zero bearing function. -/
theorem c1_localizer_continuation_witness :
    processRecord btZero c1Proc "SUSAP KHWDK2IIHWD0   111150RW28LN37394620W1220746752879                   0109     0500   E0150                            108901212"
      = .ok (ensureAirport c1Proc
          (decAirportEnroute ("SUSAP KHWDK2IIHWD0   111150RW28LN37394620W1220746752879                   0109     0500   E0150                            108901212").toList).AirportID,
        marshalLocGSStr { decLocGS ("SUSAP KHWDK2IIHWD0   111150RW28LN37394620W1220746752879                   0109     0500   E0150                            108901212").toList with
            ContinuationRecordNumber := "1" } ++ "\n" ++
        marshalLocGSContStr
          { header := (decLocGS ("SUSAP KHWDK2IIHWD0   111150RW28LN37394620W1220746752879                   0109     0500   E0150                            108901212").toList).header
            LocalizerID := (decLocGS ("SUSAP KHWDK2IIHWD0   111150RW28LN37394620W1220746752879                   0109     0500   E0150                            108901212").toList).LocalizerID
            ILSCategory := (decLocGS ("SUSAP KHWDK2IIHWD0   111150RW28LN37394620W1220746752879                   0109     0500   E0150                            108901212").toList).ILSCategory
            ContinuationRecordNumber := "2"
            ApplicationType := "S"
            FacilityCharacteristics := ""
            LocalizerTrueBearing := EncodeBearing
              (if (0 : ℚ) < 0 then 360 + (0 : ℚ) else (0 : ℚ))
            LocalizerBearingSource := "N"
            GlideSlopeBeamWidth := ""
            ApproachRouteIdent1 := ""
            ApproachRouteIdent2 := ""
            ApproachRouteIdent3 := ""
            ApproachRouteIdent4 := ""
            ApproachRouteIdent5 := ""
            Data := (decLocGS ("SUSAP KHWDK2IIHWD0   111150RW28LN37394620W1220746752879                   0109     0500   E0150                            108901212").toList).Data }
          ++ "\n") := by
  exact c1_localizer_continuation btZero c1Proc
    "SUSAP KHWDK2IIHWD0   111150RW28LN37394620W1220746752879                   0109     0500   E0150                            108901212"
    (by decide) (by decide) _ _ _ _ rfl rfl rfl rfl

/-- C8 (amended): a localizer whose airport identifier has no entry in the
correlation index is NOT a fatal failure: `processLocalizer` itself does
report the missing-airport error when its processor lacks the entry, but
`processRecord` creates the airport entry before calling it and catches
every `processLocalizer` error, so the record passes through unmodified
and the run continues with no error. -/
theorem c8_missing_airport_recovered :
    (∀ (bt : BearingFn) (p : Processor) (loc : LocGSRec),
      alGet p.Airports loc.header.AirportID = none →
      processLocalizer bt p loc
        = .error (.missingAirport loc.LocalizerID loc.header.AirportID)) ∧
    (∀ (bt : BearingFn) (p : Processor) (line : String),
      line.length = 132 →
      (decRecordRaw line.toList).SectionCode = SectionCodeAirport →
      (decAirportEnroute line.toList).SubsectionCode = SubsectionCodeLocGS →
      alGet p.Airports (decAirportEnroute line.toList).AirportID = none →
      ApproachForLoc emptyAirportData (decLocGS line.toList).LocalizerID = none →
      processRecord bt p line
        = .ok ({ p with Airports := p.Airports
              ++ [((decAirportEnroute line.toList).AirportID, emptyAirportData)] },
            line ++ "\n")) := by
  constructor
  · intro bt p loc hnone
    unfold processLocalizer
    rw [hnone]
  · intro bt p line hlen hP hI hnone hnoap
    have hens : ensureAirport p (decAirportEnroute line.toList).AirportID
        = { p with Airports := p.Airports
              ++ [((decAirportEnroute line.toList).AirportID, emptyAirportData)] } := by
      unfold ensureAirport
      rw [hnone]
    have ha0 : alGet (ensureAirport p (decAirportEnroute line.toList).AirportID).Airports
        (decLocGS line.toList).header.AirportID = some emptyAirportData := by
      rw [show (decLocGS line.toList).header.AirportID
          = (decAirportEnroute line.toList).AirportID from rfl]
      rw [alGet_ensureAirport_self, hnone]
      rfl
    have hploc : processLocalizer bt
        (ensureAirport p (decAirportEnroute line.toList).AirportID)
        (decLocGS line.toList)
        = .error (.noApproach (decLocGS line.toList).LocalizerID) := by
      unfold processLocalizer
      rw [ha0]
      simp only []
      rw [hnoap]
    have hshape : processRecord bt p line
        = match processLocalizer bt
            (ensureAirport p (decAirportEnroute line.toList).AirportID)
            (decLocGS line.toList) with
          | .error _ => .ok (ensureAirport p (decAirportEnroute line.toList).AirportID,
              marshalRecordStr (decRecordRaw line.toList) ++ "\n")
          | .ok contRecord => .ok (ensureAirport p (decAirportEnroute line.toList).AirportID,
              marshalLocGSStr { decLocGS line.toList with ContinuationRecordNumber := "1" }
                ++ "\n" ++
                marshalLocGSContStr { contRecord with Data := (decLocGS line.toList).Data }
                ++ "\n") := by
      unfold processRecord
      simp only []
      rw [hP, hI]
      rfl
    rw [hshape, hploc]
    simp only []
    rw [hens, marshalRecordStr_roundtrip line hlen]

/-- Counterexample to C8 as literally stated: over a fresh processor the
airport of this localizer has no entry when the record arrives, yet the
whole run completes successfully (the record passes through; no fatal
error is raised). -/
theorem c8_counterexample :
    alGet newProcessor.Airports "KHWD" = none ∧
    ProcessLines btZero ["SUSAP KHWDK2IIHWD0   111150RW28LN37394620W1220746752879                   0109     0500   E0150                            108901212"]
      = .ok ("SUSAP KHWDK2IIHWD0   111150RW28LN37394620W1220746752879                   0109     0500   E0150                            108901212" ++ "\n") :=
  ⟨rfl, rfl⟩

/-- Witness for the amended C8: the localizer record over a fresh index
reports the missing-airport error from `processLocalizer` alone, yet
passes through `processRecord` with the airport entry created. -/
theorem c8_missing_airport_recovered_witness :
    processLocalizer btZero newProcessor
        (decLocGS ("SUSAP KHWDK2IIHWD0   111150RW28LN37394620W1220746752879                   0109     0500   E0150                            108901212").toList)
      = .error (.missingAirport
          (decLocGS ("SUSAP KHWDK2IIHWD0   111150RW28LN37394620W1220746752879                   0109     0500   E0150                            108901212").toList).LocalizerID
          (decLocGS ("SUSAP KHWDK2IIHWD0   111150RW28LN37394620W1220746752879                   0109     0500   E0150                            108901212").toList).header.AirportID) ∧
    processRecord btZero newProcessor "SUSAP KHWDK2IIHWD0   111150RW28LN37394620W1220746752879                   0109     0500   E0150                            108901212"
      = .ok ({ newProcessor with Airports := newProcessor.Airports
            ++ [((decAirportEnroute ("SUSAP KHWDK2IIHWD0   111150RW28LN37394620W1220746752879                   0109     0500   E0150                            108901212").toList).AirportID, emptyAirportData)] },
          "SUSAP KHWDK2IIHWD0   111150RW28LN37394620W1220746752879                   0109     0500   E0150                            108901212" ++ "\n") := by
  constructor
  · exact c8_missing_airport_recovered.1 btZero newProcessor
      (decLocGS ("SUSAP KHWDK2IIHWD0   111150RW28LN37394620W1220746752879                   0109     0500   E0150                            108901212").toList)
      rfl
  · exact c8_missing_airport_recovered.2 btZero newProcessor
      "SUSAP KHWDK2IIHWD0   111150RW28LN37394620W1220746752879                   0109     0500   E0150                            108901212"
      (by decide) (by decide) (by decide) rfl rfl

/-- C10: on an airport-section localizer record `processRecord` ensures
the airport entry first and only then invokes the bearing synthesis on
the so-extended processor (first conjunct); under that processor the
airport lookup inside `processLocalizer` always succeeds (second
conjunct); hence the missing-airport error branch is unreachable from
`processRecord` (third conjunct). -/
theorem c10_airport_entry_before_synthesis :
    (∀ (bt : BearingFn) (p : Processor) (line : String),
      (decRecordRaw line.toList).SectionCode = SectionCodeAirport →
      (decAirportEnroute line.toList).SubsectionCode = SubsectionCodeLocGS →
      processRecord bt p line
        = match processLocalizer bt
            (ensureAirport p (decAirportEnroute line.toList).AirportID)
            (decLocGS line.toList) with
          | .error _ => .ok (ensureAirport p (decAirportEnroute line.toList).AirportID,
              marshalRecordStr (decRecordRaw line.toList) ++ "\n")
          | .ok contRecord => .ok (ensureAirport p (decAirportEnroute line.toList).AirportID,
              marshalLocGSStr { decLocGS line.toList with ContinuationRecordNumber := "1" }
                ++ "\n" ++
                marshalLocGSContStr { contRecord with Data := (decLocGS line.toList).Data }
                ++ "\n")) ∧
    (∀ (p : Processor) (line : String),
      alGet (ensureAirport p (decAirportEnroute line.toList).AirportID).Airports
        (decLocGS line.toList).header.AirportID
        = some ((alGet p.Airports (decAirportEnroute line.toList).AirportID).getD
            emptyAirportData)) ∧
    (∀ (bt : BearingFn) (p : Processor) (line : String) (locId aid : String),
      processLocalizer bt (ensureAirport p (decAirportEnroute line.toList).AirportID)
        (decLocGS line.toList) ≠ .error (.missingAirport locId aid)) := by
  refine ⟨?_, ?_, ?_⟩
  · intro bt p line hP hI
    unfold processRecord
    simp only []
    rw [hP, hI]
    rfl
  · intro p line
    rw [show (decLocGS line.toList).header.AirportID
        = (decAirportEnroute line.toList).AirportID from rfl]
    exact alGet_ensureAirport_self p _
  · intro bt p line locId aid h
    unfold processLocalizer at h
    rw [show (decLocGS line.toList).header.AirportID
        = (decAirportEnroute line.toList).AirportID from rfl] at h
    rw [alGet_ensureAirport_self] at h
    simp only [] at h
    cases hA : ApproachForLoc
        ((alGet p.Airports (decAirportEnroute line.toList).AirportID).getD emptyAirportData)
        (decLocGS line.toList).LocalizerID with
    | none =>
      rw [hA] at h
      simp only [] at h
      injection h with h2
      exact ProcErr.noConfusion h2
    | some apch =>
      rw [hA] at h
      simp only [] at h
      cases hF : fafLookup (ensureAirport p (decAirportEnroute line.toList).AirportID)
          ((alGet p.Airports (decAirportEnroute line.toList).AirportID).getD emptyAirportData)
          apch.FinalApproachFix with
      | none =>
        rw [hF] at h
        simp only [] at h
        injection h with h2
        exact ProcErr.noConfusion h2
      | some fap =>
        rw [hF] at h
        simp only [] at h
        cases hL : LatLon (decLocGS line.toList).LocalizerLatitude
            (decLocGS line.toList).LocalizerLongitude with
        | error e =>
          rw [hL] at h
          simp only [] at h
          injection h with h2
          exact ProcErr.noConfusion h2
        | ok pos =>
          rw [hL] at h
          simp only [] at h
          exact Except.noConfusion h

/-- Witness for C10: the localizer record over a fresh processor — the
record passes through (its synthesis fails recoverably on the freshly
created empty airport entry), the lookup succeeds, and the invoked
synthesis does not report a missing airport. -/
theorem c10_airport_entry_before_synthesis_witness :
    processRecord btZero newProcessor "SUSAP KHWDK2IIHWD0   111150RW28LN37394620W1220746752879                   0109     0500   E0150                            108901212"
      = .ok (ensureAirport newProcessor
          (decAirportEnroute ("SUSAP KHWDK2IIHWD0   111150RW28LN37394620W1220746752879                   0109     0500   E0150                            108901212").toList).AirportID,
        "SUSAP KHWDK2IIHWD0   111150RW28LN37394620W1220746752879                   0109     0500   E0150                            108901212" ++ "\n") ∧
    alGet (ensureAirport newProcessor
        (decAirportEnroute ("SUSAP KHWDK2IIHWD0   111150RW28LN37394620W1220746752879                   0109     0500   E0150                            108901212").toList).AirportID).Airports
      (decLocGS ("SUSAP KHWDK2IIHWD0   111150RW28LN37394620W1220746752879                   0109     0500   E0150                            108901212").toList).header.AirportID
      = some emptyAirportData ∧
    processLocalizer btZero (ensureAirport newProcessor
        (decAirportEnroute ("SUSAP KHWDK2IIHWD0   111150RW28LN37394620W1220746752879                   0109     0500   E0150                            108901212").toList).AirportID)
      (decLocGS ("SUSAP KHWDK2IIHWD0   111150RW28LN37394620W1220746752879                   0109     0500   E0150                            108901212").toList)
      ≠ .error (.missingAirport "IHWD" "KHWD") := by
  refine ⟨?_, ?_,
    c10_airport_entry_before_synthesis.2.2 btZero newProcessor
      "SUSAP KHWDK2IIHWD0   111150RW28LN37394620W1220746752879                   0109     0500   E0150                            108901212"
      "IHWD" "KHWD"⟩
  · rw [c10_airport_entry_before_synthesis.1 btZero newProcessor
      "SUSAP KHWDK2IIHWD0   111150RW28LN37394620W1220746752879                   0109     0500   E0150                            108901212"
      (by decide) (by decide)]
    rfl
  · exact c10_airport_entry_before_synthesis.2.1 newProcessor
      "SUSAP KHWDK2IIHWD0   111150RW28LN37394620W1220746752879                   0109     0500   E0150                            108901212"

theorem ensureAirportD_dup (p : ProcessorD) (aid : String) :
    (ensureAirportD p aid).DuplicateLocalizers = p.DuplicateLocalizers := by
  unfold ensureAirportD
  cases alGet p.Airports aid <;> rfl

theorem processRecordD_locGS_shape (bt : BearingFn) (p : ProcessorD) (line : String)
    (hP : (decRecordTrim line.toList).SectionCode = SectionCodeAirport)
    (hI : (decAirportEnroute line.toList).SubsectionCode = SubsectionCodeLocGS) :
    processRecordD bt p line
      = if (alGet (ensureAirportD p (decAirportEnroute line.toList).AirportID).DuplicateLocalizers
            (decLocGS line.toList).LocalizerID).getD false
          ∧ ((decLocGS line.toList).ILSCategory = "A" ∨ (decLocGS line.toList).ILSCategory = "L") then
        .ok (ensureAirportD p (decAirportEnroute line.toList).AirportID, "")
      else
        match processLocalizerD bt (ensureAirportD p (decAirportEnroute line.toList).AirportID)
            (decLocGS line.toList) with
        | .error _ => .ok (ensureAirportD p (decAirportEnroute line.toList).AirportID,
            marshalRecordStr (decRecordTrim line.toList) ++ "\n")
        | .ok contRecord => .ok (ensureAirportD p (decAirportEnroute line.toList).AirportID,
            marshalLocGSStr { decLocGS line.toList with ContinuationRecordNumber := "1" }
              ++ "\n" ++
              marshalLocGSContStr { contRecord with Data := (decLocGS line.toList).Data }
              ++ "\n") := by
  unfold processRecordD
  simp only []
  rw [hP, hI]
  rfl

set_option maxHeartbeats 1000000 in
theorem processRecordD_out (bt : BearingFn) (p : ProcessorD) (line : String)
    (p' : ProcessorD) (out : String)
    (h : processRecordD bt p line = .ok (p', out)) :
    out = marshalRecordStr (decRecordTrim line.toList) ++ "\n" ∨
    ((decRecordTrim line.toList).SectionCode = SectionCodeAirport ∧
      (decAirportEnroute line.toList).SubsectionCode = SubsectionCodeLocGS) := by
  by_cases hloc : (decRecordTrim line.toList).SectionCode = SectionCodeAirport ∧
      (decAirportEnroute line.toList).SubsectionCode = SubsectionCodeLocGS
  · exact Or.inr hloc
  refine Or.inl ?_
  unfold processRecordD at h
  simp only [] at h
  repeat' split at h
  all_goals try (exact absurd ⟨‹(decRecordTrim line.toList).SectionCode = SectionCodeAirport›,
    ‹(decAirportEnroute line.toList).SubsectionCode = SubsectionCodeLocGS›⟩ hloc)
  all_goals try (injection h with hpair)
  all_goals try (exact (congrArg Prod.snd hpair).symm)
  all_goals exact Except.noConfusion h

/-- C9: with the two-pass engine, a localizer record whose identifier is
marked duplicated and whose ILS category is "A" or "L" (an LDA facility)
produces no output at all (first conjunct); an empty output arises ONLY
under exactly those conditions (second conjunct); and running the
pre-pass twice over the same localizer record marks its identifier as
duplicated (third conjunct). -/
theorem c9_duplicate_lda_dropped :
    (∀ (bt : BearingFn) (p : ProcessorD) (line : String),
      (decRecordTrim line.toList).SectionCode = SectionCodeAirport →
      (decAirportEnroute line.toList).SubsectionCode = SubsectionCodeLocGS →
      (alGet p.DuplicateLocalizers (decLocGS line.toList).LocalizerID).getD false = true →
      ((decLocGS line.toList).ILSCategory = "A" ∨ (decLocGS line.toList).ILSCategory = "L") →
      processRecordD bt p line
        = .ok (ensureAirportD p (decAirportEnroute line.toList).AirportID, "")) ∧
    (∀ (bt : BearingFn) (p : ProcessorD) (line : String) (p' : ProcessorD),
      processRecordD bt p line = .ok (p', "") →
      (decRecordTrim line.toList).SectionCode = SectionCodeAirport ∧
      (decAirportEnroute line.toList).SubsectionCode = SubsectionCodeLocGS ∧
      (alGet p.DuplicateLocalizers (decLocGS line.toList).LocalizerID).getD false = true ∧
      ((decLocGS line.toList).ILSCategory = "A" ∨ (decLocGS line.toList).ILSCategory = "L")) ∧
    (∀ (p : ProcessorD) (line : String),
      (decRecordTrim line.toList).SectionCode = SectionCodeAirport →
      (decAirportEnroute line.toList).SubsectionCode = SubsectionCodeLocGS →
      alGet (preProcess (preProcess p line) line).DuplicateLocalizers
        (decLocGS line.toList).LocalizerID = some true) := by
  refine ⟨?_, ?_, ?_⟩
  · intro bt p line hP hI hdup hcat
    rw [processRecordD_locGS_shape bt p line hP hI, ensureAirportD_dup,
      if_pos ⟨hdup, hcat⟩]
  · intro bt p line p' h
    by_cases hsec : (decRecordTrim line.toList).SectionCode = SectionCodeAirport
    · by_cases hsub : (decAirportEnroute line.toList).SubsectionCode = SubsectionCodeLocGS
      · rw [processRecordD_locGS_shape bt p line hsec hsub, ensureAirportD_dup] at h
        by_cases hdup : ((alGet p.DuplicateLocalizers
              (decLocGS line.toList).LocalizerID).getD false = true)
            ∧ ((decLocGS line.toList).ILSCategory = "A" ∨
              (decLocGS line.toList).ILSCategory = "L")
        · exact ⟨hsec, hsub, hdup.1, hdup.2⟩
        · rw [if_neg hdup] at h
          cases hPL : processLocalizerD bt
              (ensureAirportD p (decAirportEnroute line.toList).AirportID)
              (decLocGS line.toList) with
          | error e =>
            rw [hPL] at h
            simp only [] at h
            injection h with hpair
            exact absurd (congrArg Prod.snd hpair) (append_newline_ne_empty _)
          | ok c =>
            rw [hPL] at h
            simp only [] at h
            injection h with hpair
            exact absurd (congrArg Prod.snd hpair) (append_newline_ne_empty _)
      · rcases processRecordD_out bt p line p' "" h with ho | hl
        · exact absurd ho.symm (append_newline_ne_empty _)
        · exact absurd hl.2 hsub
    · rcases processRecordD_out bt p line p' "" h with ho | hl
      · exact absurd ho.symm (append_newline_ne_empty _)
      · exact absurd hl.1 hsec
  · intro p line hP hI
    have shape : ∀ q : ProcessorD, preProcess q line
        = { q with DuplicateLocalizers := (alPut q.DuplicateLocalizers
              (decLocGS line.toList).LocalizerID
              ((alGet q.DuplicateLocalizers (decLocGS line.toList).LocalizerID).isSome)) } := by
      intro q
      unfold preProcess
      simp only []
      rw [hP, hI]
      cases hA : alGet q.DuplicateLocalizers (decLocGS line.toList).LocalizerID with
      | some b => rfl
      | none => rfl
    rw [shape, shape]
    have h1 : ∀ (m : List (String × Bool)) (k : String) (v1 : Bool),
        alGet (alPut (alPut m k v1) k ((alGet (alPut m k v1) k).isSome)) k = some true := by
      intro m k v1
      rw [alGet_alPut_self, alGet_alPut_self]
      rfl
    exact h1 p.DuplicateLocalizers _ _

/-- Witness for C9: the KHWD localizer record with ILS category "A" over
the fixture processor that marks IHWD duplicated — it is dropped, the
empty output certifies exactly the drop conditions, and the double
pre-pass marks the identifier. -/
theorem c9_duplicate_lda_dropped_witness :
    processRecordD btZero c9Proc "SUSAP KHWDK2IIHWDA   111150RW28LN37394620W1220746752879                   0109     0500   E0150                            108901212"
      = .ok (c9Proc, "") ∧
    ((decRecordTrim ("SUSAP KHWDK2IIHWDA   111150RW28LN37394620W1220746752879                   0109     0500   E0150                            108901212").toList).SectionCode = SectionCodeAirport ∧
      (decAirportEnroute ("SUSAP KHWDK2IIHWDA   111150RW28LN37394620W1220746752879                   0109     0500   E0150                            108901212").toList).SubsectionCode = SubsectionCodeLocGS ∧
      (alGet c9Proc.DuplicateLocalizers
        (decLocGS ("SUSAP KHWDK2IIHWDA   111150RW28LN37394620W1220746752879                   0109     0500   E0150                            108901212").toList).LocalizerID).getD false = true ∧
      ((decLocGS ("SUSAP KHWDK2IIHWDA   111150RW28LN37394620W1220746752879                   0109     0500   E0150                            108901212").toList).ILSCategory = "A" ∨
        (decLocGS ("SUSAP KHWDK2IIHWDA   111150RW28LN37394620W1220746752879                   0109     0500   E0150                            108901212").toList).ILSCategory = "L")) ∧
    alGet (preProcess (preProcess (newProcessorD true) "SUSAP KHWDK2IIHWDA   111150RW28LN37394620W1220746752879                   0109     0500   E0150                            108901212") "SUSAP KHWDK2IIHWDA   111150RW28LN37394620W1220746752879                   0109     0500   E0150                            108901212").DuplicateLocalizers
      (decLocGS ("SUSAP KHWDK2IIHWDA   111150RW28LN37394620W1220746752879                   0109     0500   E0150                            108901212").toList).LocalizerID = some true := by
  have ha := c9_duplicate_lda_dropped.1 btZero c9Proc
    "SUSAP KHWDK2IIHWDA   111150RW28LN37394620W1220746752879                   0109     0500   E0150                            108901212"
    (by decide) (by decide) rfl (Or.inl rfl)
  exact ⟨ha,
    c9_duplicate_lda_dropped.2.1 btZero c9Proc
      "SUSAP KHWDK2IIHWDA   111150RW28LN37394620W1220746752879                   0109     0500   E0150                            108901212"
      c9Proc ha,
    c9_duplicate_lda_dropped.2.2 (newProcessorD true)
      "SUSAP KHWDK2IIHWDA   111150RW28LN37394620W1220746752879                   0109     0500   E0150                            108901212"
      (by decide) (by decide)⟩

end Cifp
